import Mathlib

/-!
Shallow embedding of the pikaatools network scanner and diff engine
(`pkg/scanner/models.go`, `pkg/scanner/scanner.go`, `pkg/watch/comparator.go`,
`pkg/watch/watcher.go`) together with proofs of the specified properties.

Modelling conventions:
* Go `string` is `String`, Go `int32` is `Int` (no arithmetic is performed on
  them, so the 32-bit range is irrelevant), Go `bool` is `Bool`.
* Go `time.Time` is `GoTime`, holding the instant as one integer.  All of
  `time.Time`'s own struct fields are unexported in Go, which matters for the
  reflective comparator (unexported fields are never compared).
* Go `map[string]string` is an association list `TagMap`; Go maps cannot hold
  a key twice, and map equality / iteration in the comparator is modelled
  extensionally where the source uses `reflect.DeepEqual` / `range`.
* Go map iteration order is unspecified; the model iterates maps in first
  insertion order (`buildMap` below), a deterministic refinement.
* Struct fields keep their Go names, except `Type`, which is a Lean keyword
  and becomes `Type_`.
-/

/-- Model of Go `time.Time`: the instant as one integer (nanoseconds since the
epoch).  `time.Time` has no exported fields. -/
structure GoTime where
  unixNano : Int
deriving DecidableEq

/-- Model of Go `map[string]string` (resource tags). -/
abbrev TagMap := List (String × String)

/-- `Route` from `pkg/scanner/models.go`. -/
structure Route where
  DestinationCidr : String
  GatewayID : String
  InstanceID : String
  NetworkInterfaceID : String
  VpcPeeringID : String
  TransitGatewayID : String
  State : String
  Origin : String
deriving DecidableEq

/-- `VPC` from `pkg/scanner/models.go`. -/
structure VPC where
  ID : String
  Name : String
  CidrBlock : String
  State : String
  IsDefault : Bool
  DhcpOptionsID : String
  Tags : TagMap
  Subnets : List String
  SecurityGroups : List String
  InternetGateways : List String
  NATGateways : List String
  NetworkAcls : List String
deriving DecidableEq

/-- `Subnet` from `pkg/scanner/models.go` (`Type` renamed `Type_`). -/
structure Subnet where
  ID : String
  Name : String
  VpcID : String
  CidrBlock : String
  AvailabilityZone : String
  State : String
  MapPublicIP : Bool
  Tags : TagMap
  RouteTableID : String
  NetworkAclID : String
  Type_ : String
deriving DecidableEq

/-- `PeeringConnection` from `pkg/scanner/models.go`. -/
structure PeeringConnection where
  ID : String
  Name : String
  RequesterVpcID : String
  AccepterVpcID : String
  Status : String
  Tags : TagMap
deriving DecidableEq

/-- `TransitGatewayAttachment` from `pkg/scanner/models.go`. -/
structure TransitGatewayAttachment where
  ID : String
  TransitGatewayID : String
  ResourceID : String
  ResourceType : String
  State : String
  Tags : TagMap
deriving DecidableEq

/-- `TransitGateway` from `pkg/scanner/models.go`. -/
structure TransitGateway where
  ID : String
  Name : String
  State : String
  Tags : TagMap
  Attachments : List TransitGatewayAttachment
deriving DecidableEq

/-- `InternetGateway` from `pkg/scanner/models.go`. -/
structure InternetGateway where
  ID : String
  Name : String
  VpcID : String
  State : String
  Tags : TagMap
deriving DecidableEq

/-- `NATGateway` from `pkg/scanner/models.go`. -/
structure NATGateway where
  ID : String
  Name : String
  VpcID : String
  SubnetID : String
  State : String
  PublicIP : String
  PrivateIP : String
  ConnectivityType : String
  Tags : TagMap
deriving DecidableEq

/-- `RouteTable` from `pkg/scanner/models.go`. -/
structure RouteTable where
  ID : String
  Name : String
  VpcID : String
  IsMain : Bool
  Tags : TagMap
  Routes : List Route
  Associations : List String
deriving DecidableEq

/-- `SecurityGroupRule` from `pkg/scanner/models.go`. -/
structure SecurityGroupRule where
  IpProtocol : String
  FromPort : Int
  ToPort : Int
  CidrBlocks : List String
  Ipv6CidrBlocks : List String
  PrefixListIds : List String
  ReferencedGroupId : String
  ReferencedGroupOwnerId : String
  Description : String
  Tags : TagMap
deriving DecidableEq

/-- `SecurityGroup` from `pkg/scanner/models.go`. -/
structure SecurityGroup where
  ID : String
  Name : String
  Description : String
  VpcID : String
  Tags : TagMap
  IngressRules : List SecurityGroupRule
  EgressRules : List SecurityGroupRule
deriving DecidableEq

/-- `IAMPolicy` from `pkg/scanner/models.go`. -/
structure IAMPolicy where
  Arn : String
  PolicyName : String
  PolicyId : String
  Path : String
  DefaultVersionId : String
  AttachmentCount : Int
  PermissionsBoundaryUsageCount : Int
  IsAttachable : Bool
  Description : String
  CreateDate : GoTime
  UpdateDate : GoTime
  Tags : TagMap
  PolicyDocument : String
deriving DecidableEq

/-- `IAMInlinePolicy` from `pkg/scanner/models.go`. -/
structure IAMInlinePolicy where
  PolicyName : String
  PolicyDocument : String
deriving DecidableEq

/-- `IAMRole` from `pkg/scanner/models.go`. -/
structure IAMRole where
  ID : String
  Name : String
  Path : String
  Arn : String
  Description : String
  CreateDate : GoTime
  AssumeRolePolicyDocument : String
  MaxSessionDuration : Int
  Tags : TagMap
  AttachedPolicies : List IAMPolicy
  InlinePolicies : List IAMInlinePolicy
deriving DecidableEq

/-- `NetworkAclPortRange` from `pkg/scanner/models.go`. -/
structure NetworkAclPortRange where
  From : Int
  To : Int
deriving DecidableEq

/-- `NetworkAclIcmpType` from `pkg/scanner/models.go` (`Type` renamed `Type_`). -/
structure NetworkAclIcmpType where
  Type_ : Int
  Code : Int
deriving DecidableEq

/-- `NetworkAclEntry` from `pkg/scanner/models.go`; the two pointer fields are
`Option`s (`nil` = `none`). -/
structure NetworkAclEntry where
  RuleNumber : Int
  Protocol : String
  RuleAction : String
  CidrBlock : String
  Ipv6CidrBlock : String
  PortRange : Option NetworkAclPortRange
  IcmpType : Option NetworkAclIcmpType
  Egress : Bool
deriving DecidableEq

/-- `NetworkAcl` from `pkg/scanner/models.go`. -/
structure NetworkAcl where
  ID : String
  Name : String
  VpcID : String
  IsDefault : Bool
  Tags : TagMap
  Entries : List NetworkAclEntry
  Associations : List String
deriving DecidableEq

/-- `Network` from `pkg/scanner/models.go`: the complete snapshot. -/
structure Network where
  VPCs : List VPC
  Subnets : List Subnet
  PeeringConnections : List PeeringConnection
  TransitGateways : List TransitGateway
  InternetGateways : List InternetGateway
  NATGateways : List NATGateway
  RouteTables : List RouteTable
  SecurityGroups : List SecurityGroup
  NetworkAcls : List NetworkAcl
  IAMRoles : List IAMRole
  ScanTime : GoTime
  Region : String
deriving DecidableEq

/-!
## Diff engine (`pkg/watch/comparator.go`)

The source `Comparator` struct carries only a `verbose` flag, used by
`PrintDifferences` (presentation) and not by `Compare`, so the comparison
functions are modelled as plain functions.
-/

/-- `DifferenceType` from `pkg/watch/comparator.go`. -/
inductive DifferenceType where
  | Added
  | Removed
  | Modified
deriving DecidableEq

/-- `Difference` from `pkg/watch/comparator.go` (`Type` renamed `Type_`). -/
structure Difference where
  Type_ : DifferenceType
  ResourceType : String
  ResourceID : String
  Description : String
  Details : List String
deriving DecidableEq

/-- Association-list lookup, modelling Go map indexing (`m[k]`). -/
def lookupKey {α : Type} (k : String) : List (String × α) → Option α
  | [] => none
  | (k0, v) :: rest => if k0 = k then some v else lookupKey k rest

/-- Association-list insertion, modelling Go map assignment (`m[k] = v`):
an existing key keeps its position and gets the new value, a new key is
appended.  This realises Go's maps with a deterministic (first-insertion)
iteration order. -/
def upsert {α : Type} : List (String × α) → String → α → List (String × α)
  | [], k, v => [(k, v)]
  | (k0, v0) :: rest, k, v =>
      if k0 = k then (k0, v) :: rest else (k0, v0) :: upsert rest k v

/-- Building the `baselineMap` / `currentMap` of `compareSlices`: index the
items of a collection by their identifier, later items overwriting earlier
ones with the same identifier. -/
def buildMap {α : Type} (getID : α → String) (items : List α) : List (String × α) :=
  items.foldl (fun m item => upsert m (getID item) item) []

/-- `Comparator.shouldSkipField`: the fixed skip list
`["ScanTime", "CreateDate", "UpdateDate"]`. -/
def shouldSkipField (fieldName : String) : Bool :=
  ["ScanTime", "CreateDate", "UpdateDate"].any fun skip => fieldName == skip

/-- The skip test `compareStructs` applies to every struct field before
comparing it. -/
def skipGuard (fieldName : String) (details : List String) : List String :=
  if shouldSkipField fieldName then [] else details

/-- Go `%v` rendering of a string: the string itself. -/
def govString (s : String) : String := s

/-- Go `%v` rendering of a bool. -/
def govBool (b : Bool) : String := if b then "true" else "false"

/-- Go `%v` rendering of an integer. -/
def govInt (i : Int) : String := toString i

/-- The `default` branch of `compareStructs` for a scalar field: if the two
values differ (`reflect.DeepEqual`), one `path: old → new` line. -/
def diffPrim {α : Type} [DecidableEq α] (gov : α → String) (fieldPath : String)
    (baselineField currentField : α) : List String :=
  if baselineField = currentField then []
  else [fieldPath ++ ": " ++ gov baselineField ++ " → " ++ gov currentField]

/-- `Comparator.compareSlicesReflect`: a length note when the lengths differ,
and one combined "slice contents changed" line when the lengths differ or the
contents are not deeply equal. -/
def compareSlicesReflect {α : Type} [DecidableEq α]
    (baseline current : List α) (path : String) : List String :=
  (if baseline.length ≠ current.length then
     [path ++ ": length changed from " ++ toString baseline.length
        ++ " to " ++ toString current.length]
   else [])
  ++ (if baseline.length ≠ current.length ∨ baseline ≠ current then
        [path ++ ": slice contents changed"]
      else [])

/-- A slice-typed struct field in `compareStructs`: skipped when deeply equal,
otherwise handed to `compareSlicesReflect`. -/
def diffSliceField {α : Type} [DecidableEq α] (path : String)
    (baselineField currentField : List α) : List String :=
  if baselineField = currentField then []
  else compareSlicesReflect baselineField currentField path

/-- `Comparator.compareMaps`: removed keys (iterating the baseline map), then
added keys and changed values (iterating the current map). -/
def compareMaps (baseline current : TagMap) (path : String) : List String :=
  (baseline.filterMap fun p =>
    if lookupKey p.1 current = none then
      some (path ++ "[" ++ p.1 ++ "]: key removed")
    else none)
  ++ (current.filterMap fun p =>
    match lookupKey p.1 baseline with
    | none => some (path ++ "[" ++ p.1 ++ "]: key added with value " ++ p.2)
    | some bv =>
        if bv = p.2 then none
        else some (path ++ "[" ++ p.1 ++ "]: " ++ bv ++ " → " ++ p.2))

/-- A map-typed struct field in `compareStructs`: skipped when deeply equal,
otherwise handed to `compareMaps`.  (The model's structural guard is finer
than `reflect.DeepEqual` on maps, but `compareMaps` reports no line on
extensionally equal maps, so the emitted details agree.) -/
def diffMapField (path : String) (baselineField currentField : TagMap) : List String :=
  if baselineField = currentField then []
  else compareMaps baselineField currentField path

/-- A `time.Time`-typed struct field: `compareStructs` recursion into a struct
with no exported fields compares nothing and yields no lines. -/
def compareTimeStructs (_baseline _current : GoTime) (_path : String) : List String := []

/-- A `time.Time` struct field in `compareStructs`: equality guard, then
struct recursion (which yields nothing). -/
def diffTimeField (path : String) (baselineField currentField : GoTime) : List String :=
  if baselineField = currentField then []
  else compareTimeStructs baselineField currentField path

/-- `compareStructs` specialised to `VPC`, walking its fields in declaration
order. -/
def compareStructsVPC (b c : VPC) : List String :=
  skipGuard "ID" (diffPrim govString "ID" b.ID c.ID)
  ++ skipGuard "Name" (diffPrim govString "Name" b.Name c.Name)
  ++ skipGuard "CidrBlock" (diffPrim govString "CidrBlock" b.CidrBlock c.CidrBlock)
  ++ skipGuard "State" (diffPrim govString "State" b.State c.State)
  ++ skipGuard "IsDefault" (diffPrim govBool "IsDefault" b.IsDefault c.IsDefault)
  ++ skipGuard "DhcpOptionsID" (diffPrim govString "DhcpOptionsID" b.DhcpOptionsID c.DhcpOptionsID)
  ++ skipGuard "Tags" (diffMapField "Tags" b.Tags c.Tags)
  ++ skipGuard "Subnets" (diffSliceField "Subnets" b.Subnets c.Subnets)
  ++ skipGuard "SecurityGroups" (diffSliceField "SecurityGroups" b.SecurityGroups c.SecurityGroups)
  ++ skipGuard "InternetGateways" (diffSliceField "InternetGateways" b.InternetGateways c.InternetGateways)
  ++ skipGuard "NATGateways" (diffSliceField "NATGateways" b.NATGateways c.NATGateways)
  ++ skipGuard "NetworkAcls" (diffSliceField "NetworkAcls" b.NetworkAcls c.NetworkAcls)

/-- `compareStructs` specialised to `Subnet`. -/
def compareStructsSubnet (b c : Subnet) : List String :=
  skipGuard "ID" (diffPrim govString "ID" b.ID c.ID)
  ++ skipGuard "Name" (diffPrim govString "Name" b.Name c.Name)
  ++ skipGuard "VpcID" (diffPrim govString "VpcID" b.VpcID c.VpcID)
  ++ skipGuard "CidrBlock" (diffPrim govString "CidrBlock" b.CidrBlock c.CidrBlock)
  ++ skipGuard "AvailabilityZone" (diffPrim govString "AvailabilityZone" b.AvailabilityZone c.AvailabilityZone)
  ++ skipGuard "State" (diffPrim govString "State" b.State c.State)
  ++ skipGuard "MapPublicIP" (diffPrim govBool "MapPublicIP" b.MapPublicIP c.MapPublicIP)
  ++ skipGuard "Tags" (diffMapField "Tags" b.Tags c.Tags)
  ++ skipGuard "RouteTableID" (diffPrim govString "RouteTableID" b.RouteTableID c.RouteTableID)
  ++ skipGuard "NetworkAclID" (diffPrim govString "NetworkAclID" b.NetworkAclID c.NetworkAclID)
  ++ skipGuard "Type" (diffPrim govString "Type" b.Type_ c.Type_)

/-- `compareStructs` specialised to `PeeringConnection`. -/
def compareStructsPeering (b c : PeeringConnection) : List String :=
  skipGuard "ID" (diffPrim govString "ID" b.ID c.ID)
  ++ skipGuard "Name" (diffPrim govString "Name" b.Name c.Name)
  ++ skipGuard "RequesterVpcID" (diffPrim govString "RequesterVpcID" b.RequesterVpcID c.RequesterVpcID)
  ++ skipGuard "AccepterVpcID" (diffPrim govString "AccepterVpcID" b.AccepterVpcID c.AccepterVpcID)
  ++ skipGuard "Status" (diffPrim govString "Status" b.Status c.Status)
  ++ skipGuard "Tags" (diffMapField "Tags" b.Tags c.Tags)

/-- `compareStructs` specialised to `TransitGateway`. -/
def compareStructsTGW (b c : TransitGateway) : List String :=
  skipGuard "ID" (diffPrim govString "ID" b.ID c.ID)
  ++ skipGuard "Name" (diffPrim govString "Name" b.Name c.Name)
  ++ skipGuard "State" (diffPrim govString "State" b.State c.State)
  ++ skipGuard "Tags" (diffMapField "Tags" b.Tags c.Tags)
  ++ skipGuard "Attachments" (diffSliceField "Attachments" b.Attachments c.Attachments)

/-- `compareStructs` specialised to `InternetGateway`. -/
def compareStructsIGW (b c : InternetGateway) : List String :=
  skipGuard "ID" (diffPrim govString "ID" b.ID c.ID)
  ++ skipGuard "Name" (diffPrim govString "Name" b.Name c.Name)
  ++ skipGuard "VpcID" (diffPrim govString "VpcID" b.VpcID c.VpcID)
  ++ skipGuard "State" (diffPrim govString "State" b.State c.State)
  ++ skipGuard "Tags" (diffMapField "Tags" b.Tags c.Tags)

/-- `compareStructs` specialised to `NATGateway`. -/
def compareStructsNAT (b c : NATGateway) : List String :=
  skipGuard "ID" (diffPrim govString "ID" b.ID c.ID)
  ++ skipGuard "Name" (diffPrim govString "Name" b.Name c.Name)
  ++ skipGuard "VpcID" (diffPrim govString "VpcID" b.VpcID c.VpcID)
  ++ skipGuard "SubnetID" (diffPrim govString "SubnetID" b.SubnetID c.SubnetID)
  ++ skipGuard "State" (diffPrim govString "State" b.State c.State)
  ++ skipGuard "PublicIP" (diffPrim govString "PublicIP" b.PublicIP c.PublicIP)
  ++ skipGuard "PrivateIP" (diffPrim govString "PrivateIP" b.PrivateIP c.PrivateIP)
  ++ skipGuard "ConnectivityType" (diffPrim govString "ConnectivityType" b.ConnectivityType c.ConnectivityType)
  ++ skipGuard "Tags" (diffMapField "Tags" b.Tags c.Tags)

/-- `compareStructs` specialised to `RouteTable`. -/
def compareStructsRouteTable (b c : RouteTable) : List String :=
  skipGuard "ID" (diffPrim govString "ID" b.ID c.ID)
  ++ skipGuard "Name" (diffPrim govString "Name" b.Name c.Name)
  ++ skipGuard "VpcID" (diffPrim govString "VpcID" b.VpcID c.VpcID)
  ++ skipGuard "IsMain" (diffPrim govBool "IsMain" b.IsMain c.IsMain)
  ++ skipGuard "Tags" (diffMapField "Tags" b.Tags c.Tags)
  ++ skipGuard "Routes" (diffSliceField "Routes" b.Routes c.Routes)
  ++ skipGuard "Associations" (diffSliceField "Associations" b.Associations c.Associations)

/-- `compareStructs` specialised to `SecurityGroup`. -/
def compareStructsSG (b c : SecurityGroup) : List String :=
  skipGuard "ID" (diffPrim govString "ID" b.ID c.ID)
  ++ skipGuard "Name" (diffPrim govString "Name" b.Name c.Name)
  ++ skipGuard "Description" (diffPrim govString "Description" b.Description c.Description)
  ++ skipGuard "VpcID" (diffPrim govString "VpcID" b.VpcID c.VpcID)
  ++ skipGuard "Tags" (diffMapField "Tags" b.Tags c.Tags)
  ++ skipGuard "IngressRules" (diffSliceField "IngressRules" b.IngressRules c.IngressRules)
  ++ skipGuard "EgressRules" (diffSliceField "EgressRules" b.EgressRules c.EgressRules)

/-- `compareStructs` specialised to `NetworkAcl`. -/
def compareStructsNACL (b c : NetworkAcl) : List String :=
  skipGuard "ID" (diffPrim govString "ID" b.ID c.ID)
  ++ skipGuard "Name" (diffPrim govString "Name" b.Name c.Name)
  ++ skipGuard "VpcID" (diffPrim govString "VpcID" b.VpcID c.VpcID)
  ++ skipGuard "IsDefault" (diffPrim govBool "IsDefault" b.IsDefault c.IsDefault)
  ++ skipGuard "Tags" (diffMapField "Tags" b.Tags c.Tags)
  ++ skipGuard "Entries" (diffSliceField "Entries" b.Entries c.Entries)
  ++ skipGuard "Associations" (diffSliceField "Associations" b.Associations c.Associations)

/-- `compareStructs` specialised to `IAMRole`.  `CreateDate` hits the skip
list; were it not skipped, the recursion into `time.Time` would still compare
no exported fields. -/
def compareStructsIAMRole (b c : IAMRole) : List String :=
  skipGuard "ID" (diffPrim govString "ID" b.ID c.ID)
  ++ skipGuard "Name" (diffPrim govString "Name" b.Name c.Name)
  ++ skipGuard "Path" (diffPrim govString "Path" b.Path c.Path)
  ++ skipGuard "Arn" (diffPrim govString "Arn" b.Arn c.Arn)
  ++ skipGuard "Description" (diffPrim govString "Description" b.Description c.Description)
  ++ skipGuard "CreateDate" (diffTimeField "CreateDate" b.CreateDate c.CreateDate)
  ++ skipGuard "AssumeRolePolicyDocument"
       (diffPrim govString "AssumeRolePolicyDocument" b.AssumeRolePolicyDocument c.AssumeRolePolicyDocument)
  ++ skipGuard "MaxSessionDuration" (diffPrim govInt "MaxSessionDuration" b.MaxSessionDuration c.MaxSessionDuration)
  ++ skipGuard "Tags" (diffMapField "Tags" b.Tags c.Tags)
  ++ skipGuard "AttachedPolicies" (diffSliceField "AttachedPolicies" b.AttachedPolicies c.AttachedPolicies)
  ++ skipGuard "InlinePolicies" (diffSliceField "InlinePolicies" b.InlinePolicies c.InlinePolicies)

/-- `Comparator.compareSlices`: index both collections by identifier, then
emit Added (identifiers only in `current`), Removed (identifiers only in
`baseline`) and Modified (identifiers in both whose field comparison is
non-empty) differences, in that order. -/
def compareSlices {α : Type} (resourceType : String) (getID : α → String)
    (findObjectDifferences : α → α → List String)
    (baseline current : List α) : List Difference :=
  let baselineMap := buildMap getID baseline
  let currentMap := buildMap getID current
  (currentMap.filterMap fun p =>
    if (lookupKey p.1 baselineMap).isNone then
      some { Type_ := .Added, ResourceType := resourceType, ResourceID := p.1,
             Description := "New " ++ resourceType.toLower ++ " created",
             Details := [] }
    else none)
  ++ (baselineMap.filterMap fun p =>
    if (lookupKey p.1 currentMap).isNone then
      some { Type_ := .Removed, ResourceType := resourceType, ResourceID := p.1,
             Description := resourceType.toLower ++ " was deleted",
             Details := [] }
    else none)
  ++ (currentMap.filterMap fun p =>
    match lookupKey p.1 baselineMap with
    | none => none
    | some baselineItem =>
        let details := findObjectDifferences baselineItem p.2
        if details.isEmpty then none
        else
          some { Type_ := .Modified, ResourceType := resourceType, ResourceID := p.1,
                 Description := resourceType.toLower ++ " configuration changed",
                 Details := details })

/-- `Comparator.compareVPCs`. -/
def compareVPCs (baseline current : List VPC) : List Difference :=
  compareSlices "VPC" VPC.ID compareStructsVPC baseline current

/-- `Comparator.compareSubnets`. -/
def compareSubnets (baseline current : List Subnet) : List Difference :=
  compareSlices "Subnet" Subnet.ID compareStructsSubnet baseline current

/-- `Comparator.compareSecurityGroups`. -/
def compareSecurityGroups (baseline current : List SecurityGroup) : List Difference :=
  compareSlices "SecurityGroup" SecurityGroup.ID compareStructsSG baseline current

/-- `Comparator.compareNetworkAcls`. -/
def compareNetworkAcls (baseline current : List NetworkAcl) : List Difference :=
  compareSlices "NetworkACL" NetworkAcl.ID compareStructsNACL baseline current

/-- `Comparator.compareRouteTables`. -/
def compareRouteTables (baseline current : List RouteTable) : List Difference :=
  compareSlices "RouteTable" RouteTable.ID compareStructsRouteTable baseline current

/-- `Comparator.comparePeeringConnections`. -/
def comparePeeringConnections (baseline current : List PeeringConnection) : List Difference :=
  compareSlices "PeeringConnection" PeeringConnection.ID compareStructsPeering baseline current

/-- `Comparator.compareTransitGateways`. -/
def compareTransitGateways (baseline current : List TransitGateway) : List Difference :=
  compareSlices "TransitGateway" TransitGateway.ID compareStructsTGW baseline current

/-- `Comparator.compareInternetGateways`. -/
def compareInternetGateways (baseline current : List InternetGateway) : List Difference :=
  compareSlices "InternetGateway" InternetGateway.ID compareStructsIGW baseline current

/-- `Comparator.compareNATGateways`. -/
def compareNATGateways (baseline current : List NATGateway) : List Difference :=
  compareSlices "NATGateway" NATGateway.ID compareStructsNAT baseline current

/-- `Comparator.compareIAMRoles`. -/
def compareIAMRoles (baseline current : List IAMRole) : List Difference :=
  compareSlices "IAMRole" IAMRole.ID compareStructsIAMRole baseline current

/-- `Comparator.Compare`: the ten per-collection comparisons, concatenated in
the source's fixed order. -/
def Compare (baseline current : Network) : List Difference :=
  compareVPCs baseline.VPCs current.VPCs
  ++ compareSubnets baseline.Subnets current.Subnets
  ++ compareSecurityGroups baseline.SecurityGroups current.SecurityGroups
  ++ compareNetworkAcls baseline.NetworkAcls current.NetworkAcls
  ++ compareRouteTables baseline.RouteTables current.RouteTables
  ++ comparePeeringConnections baseline.PeeringConnections current.PeeringConnections
  ++ compareTransitGateways baseline.TransitGateways current.TransitGateways
  ++ compareInternetGateways baseline.InternetGateways current.InternetGateways
  ++ compareNATGateways baseline.NATGateways current.NATGateways
  ++ compareIAMRoles baseline.IAMRoles current.IAMRoles

/-!
## Topology derivation (`pkg/scanner/scanner.go`)
-/

/-- Model of Go `strings.HasPrefix` (the character-prefix test), written over
the character list so that it evaluates in the kernel. -/
def goHasPrefix (s pre : String) : Bool := pre.data.isPrefixOf s.data

/-- `determineSubnetType` from `pkg/scanner/scanner.go`: scan the routes once,
flagging a default route through an internet gateway that is present in the
gateway set, and a default route through a `nat-` prefixed gateway (no
membership test); then decide public / private / isolated. -/
def determineSubnetType (routeTable : RouteTable) (igws : List InternetGateway) : String :=
  let hasIGWRoute := routeTable.Routes.any fun route =>
    goHasPrefix route.GatewayID "igw-"
      && igws.any fun igw => igw.ID == route.GatewayID && route.DestinationCidr == "0.0.0.0/0"
  let hasNATRoute := routeTable.Routes.any fun route =>
    goHasPrefix route.GatewayID "nat-" && route.DestinationCidr == "0.0.0.0/0"
  if hasIGWRoute then "public"
  else if hasNATRoute then "private"
  else "isolated"

/-- The route-table resolution of `updateSubnetTypes`: the first route table
explicitly associated with the subnet, else the first main route table of the
subnet's VPC, else none. -/
def resolveRouteTable (routeTables : List RouteTable) (subnet : Subnet) : Option RouteTable :=
  match routeTables.find? (fun rt => rt.Associations.any fun a => a == subnet.ID) with
  | some rt => some rt
  | none => routeTables.find? fun rt => rt.VpcID == subnet.VpcID && rt.IsMain

/-- The per-subnet update of `updateSubnetTypes`: record the resolved route
table's identifier and the derived type; with no resolvable route table the
type is `"isolated"` and the recorded route-table identifier is unchanged. -/
def updateOneSubnet (net : Network) (subnet : Subnet) : Subnet :=
  match resolveRouteTable net.RouteTables subnet with
  | some rt =>
      { subnet with RouteTableID := rt.ID,
                    Type_ := determineSubnetType rt net.InternetGateways }
  | none => { subnet with Type_ := "isolated" }

/-- `NetworkScanner.updateSubnetTypes`. -/
def updateSubnetTypes (net : Network) : Network :=
  { net with Subnets := net.Subnets.map (updateOneSubnet net) }

/-- The association-list appends of `updateVPCAssociations` for one VPC: the
identifiers of the subnets, internet gateways, NAT gateways and security
groups whose vpc-reference equals the VPC's identifier, appended to the VPC's
existing lists in collection order. -/
def enrichVPC (net : Network) (v : VPC) : VPC :=
  { v with
    Subnets := v.Subnets ++ (net.Subnets.filter fun s => s.VpcID == v.ID).map Subnet.ID,
    InternetGateways :=
      v.InternetGateways ++ (net.InternetGateways.filter fun g => g.VpcID == v.ID).map InternetGateway.ID,
    NATGateways :=
      v.NATGateways ++ (net.NATGateways.filter fun g => g.VpcID == v.ID).map NATGateway.ID,
    SecurityGroups :=
      v.SecurityGroups ++ (net.SecurityGroups.filter fun g => g.VpcID == v.ID).map SecurityGroup.ID }

/-- The VPC-list update of `updateVPCAssociations`.  The source builds a map
from VPC identifier to a pointer into the slice, so with duplicated VPC
identifiers all appends land on the last VPC with that identifier; hence only
the last occurrence of each identifier is enriched. -/
def updateVPCList (net : Network) : List VPC → List VPC
  | [] => []
  | v :: rest =>
      (if rest.all (fun w => w.ID != v.ID) then enrichVPC net v else v)
        :: updateVPCList net rest

/-- `NetworkScanner.updateVPCAssociations`. -/
def updateVPCAssociations (net : Network) : Network :=
  { net with VPCs := updateVPCList net net.VPCs }

/-!
## Watch scheduler (`pkg/watch/watcher.go`)

The scheduler's interaction with the Inventory Provider is modelled by the
outcome of each scan: `Except.ok` a fresh snapshot or `Except.error` a
message.  The timer is modelled by the list of per-tick outcomes; each list
entry is one tick that fired.
-/

/-- `Watcher.performScan`: acquire a snapshot and diff it against the
baseline; an acquisition failure propagates as an error. -/
def performScan (baseline : Network) (scan : Except String Network) :
    Except String (List Difference) :=
  match scan with
  | .error e => .error ("failed to scan network: " ++ e)
  | .ok current => .ok (Compare baseline current)

/-- `Watcher.Watch` after the baseline is loaded: run the initial scan — a
failure there aborts the watch with an error — then one `performScan` per
tick, reporting `none` for a failed cycle and continuing, always against the
same baseline. -/
def Watch (baseline : Network) (initialScan : Except String Network)
    (ticks : List (Except String Network)) :
    Except String (List (Option (List Difference))) :=
  match performScan baseline initialScan with
  | .error e => .error ("initial scan failed: " ++ e)
  | .ok initialDiffs =>
      .ok (some initialDiffs :: ticks.map fun tick =>
        match performScan baseline tick with
        | .error _ => none
        | .ok diffs => some diffs)

/-!
## Snapshot persistence (`cmd` JSON export and `Comparator.LoadWorkingState`)

`runScan` writes the snapshot with `encoding/json` (`json.MarshalIndent`);
`LoadWorkingState` reads it back with `json.Unmarshal`.  The JSON document is
modelled structurally (indentation is presentation only); `time.Time` values
marshal to their RFC3339 rendering, which is injective on instants and is
modelled by the instant itself.  Unmarshalling leaves a field at its zero
value when it is absent or JSON `null`, and fails on a type mismatch.
-/

/-- A JSON document. -/
inductive Json where
  | null : Json
  | bool : Bool → Json
  | num : Int → Json
  | str : String → Json
  | arr : List Json → Json
  | obj : List (String × Json) → Json

/-- Decode a JSON value as a string (array / map elements). -/
def Json.asStr : Json → Option String
  | .str s => some s
  | _ => none

/-- Unmarshal a string field: absent or `null` leaves the zero value. -/
def getStr (fields : List (String × Json)) (name : String) : Option String :=
  match lookupKey name fields with
  | none => some ""
  | some .null => some ""
  | some (.str s) => some s
  | some _ => none

/-- Unmarshal a bool field: absent or `null` leaves the zero value. -/
def getBool (fields : List (String × Json)) (name : String) : Option Bool :=
  match lookupKey name fields with
  | none => some false
  | some .null => some false
  | some (.bool b) => some b
  | some _ => none

/-- Unmarshal an integer field: absent or `null` leaves the zero value. -/
def getInt (fields : List (String × Json)) (name : String) : Option Int :=
  match lookupKey name fields with
  | none => some 0
  | some .null => some 0
  | some (.num n) => some n
  | some _ => none

/-- Unmarshal a `time.Time` field. -/
def getTime (fields : List (String × Json)) (name : String) : Option GoTime :=
  match lookupKey name fields with
  | none => some ⟨0⟩
  | some .null => some ⟨0⟩
  | some (.num n) => some ⟨n⟩
  | some _ => none

/-- Unmarshal an array field: absent or `null` leaves the zero value
(`nil` slice). -/
def getArr (fields : List (String × Json)) (name : String) : Option (List Json) :=
  match lookupKey name fields with
  | none => some []
  | some .null => some []
  | some (.arr items) => some items
  | some _ => none

/-- Unmarshal the elements of a JSON array one by one. -/
def decList {α : Type} (dec : Json → Option α) : List Json → Option (List α)
  | [] => some []
  | j :: rest => (dec j).bind fun a => (decList dec rest).map fun l => a :: l

/-- Unmarshal the entries of a JSON object as a `map[string]string`. -/
def decTagEntries : List (String × Json) → Option TagMap
  | [] => some []
  | p :: rest => (Json.asStr p.2).bind fun s =>
      (decTagEntries rest).map fun l => (p.1, s) :: l

/-- Unmarshal a `[]string` field. -/
def getStrList (fields : List (String × Json)) (name : String) : Option (List String) :=
  (getArr fields name).bind fun items => decList Json.asStr items

/-- Unmarshal a `map[string]string` field. -/
def getTags (fields : List (String × Json)) (name : String) : Option TagMap :=
  match lookupKey name fields with
  | none => some []
  | some .null => some []
  | some (.obj entries) => decTagEntries entries
  | some _ => none

/-- Unmarshal a slice-of-structs field elementwise. -/
def getListWith {α : Type} (dec : Json → Option α)
    (fields : List (String × Json)) (name : String) : Option (List α) :=
  (getArr fields name).bind fun items => decList dec items

/-- Unmarshal an optional (pointer) field: absent or `null` is `nil`. -/
def getOpt {α : Type} (dec : Json → Option α)
    (fields : List (String × Json)) (name : String) : Option (Option α) :=
  match lookupKey name fields with
  | none => some none
  | some .null => some none
  | some j => (dec j).map some

/-- Marshal a `map[string]string` field. -/
def encodeTags (tags : TagMap) : Json := .obj (tags.map fun p => (p.1, .str p.2))

/-- Marshal a `[]string` field. -/
def encodeStrList (l : List String) : Json := .arr (l.map Json.str)

/-- Marshal a `time.Time` field. -/
def encodeTime (t : GoTime) : Json := .num t.unixNano

/-- Marshal a `VPC` (field tags from `pkg/scanner/models.go`). -/
def encodeVPC (v : VPC) : Json :=
  .obj [("id", .str v.ID), ("name", .str v.Name), ("cidr_block", .str v.CidrBlock),
        ("state", .str v.State), ("is_default", .bool v.IsDefault),
        ("dhcp_options_id", .str v.DhcpOptionsID), ("tags", encodeTags v.Tags),
        ("subnets", encodeStrList v.Subnets),
        ("security_groups", encodeStrList v.SecurityGroups),
        ("internet_gateways", encodeStrList v.InternetGateways),
        ("nat_gateways", encodeStrList v.NATGateways),
        ("network_acls", encodeStrList v.NetworkAcls)]

/-- Unmarshal a `VPC`. -/
def decodeVPC : Json → Option VPC
  | .obj fields => do
      let id ← getStr fields "id"
      let name ← getStr fields "name"
      let cidr ← getStr fields "cidr_block"
      let state ← getStr fields "state"
      let isDefault ← getBool fields "is_default"
      let dhcp ← getStr fields "dhcp_options_id"
      let tags ← getTags fields "tags"
      let subnets ← getStrList fields "subnets"
      let sgs ← getStrList fields "security_groups"
      let igws ← getStrList fields "internet_gateways"
      let nats ← getStrList fields "nat_gateways"
      let nacls ← getStrList fields "network_acls"
      pure { ID := id, Name := name, CidrBlock := cidr, State := state,
             IsDefault := isDefault, DhcpOptionsID := dhcp, Tags := tags,
             Subnets := subnets, SecurityGroups := sgs, InternetGateways := igws,
             NATGateways := nats, NetworkAcls := nacls }
  | _ => none

/-- Marshal a `Subnet`. -/
def encodeSubnet (s : Subnet) : Json :=
  .obj [("id", .str s.ID), ("name", .str s.Name), ("vpc_id", .str s.VpcID),
        ("cidr_block", .str s.CidrBlock), ("availability_zone", .str s.AvailabilityZone),
        ("state", .str s.State), ("map_public_ip", .bool s.MapPublicIP),
        ("tags", encodeTags s.Tags), ("route_table_id", .str s.RouteTableID),
        ("network_acl_id", .str s.NetworkAclID), ("type", .str s.Type_)]

/-- Unmarshal a `Subnet`. -/
def decodeSubnet : Json → Option Subnet
  | .obj fields => do
      let id ← getStr fields "id"
      let name ← getStr fields "name"
      let vpcID ← getStr fields "vpc_id"
      let cidr ← getStr fields "cidr_block"
      let az ← getStr fields "availability_zone"
      let state ← getStr fields "state"
      let mapIP ← getBool fields "map_public_ip"
      let tags ← getTags fields "tags"
      let rtID ← getStr fields "route_table_id"
      let naclID ← getStr fields "network_acl_id"
      let ty ← getStr fields "type"
      pure { ID := id, Name := name, VpcID := vpcID, CidrBlock := cidr,
             AvailabilityZone := az, State := state, MapPublicIP := mapIP,
             Tags := tags, RouteTableID := rtID, NetworkAclID := naclID,
             Type_ := ty }
  | _ => none

/-- Marshal a `PeeringConnection`. -/
def encodePeering (p : PeeringConnection) : Json :=
  .obj [("id", .str p.ID), ("name", .str p.Name),
        ("requester_vpc_id", .str p.RequesterVpcID),
        ("accepter_vpc_id", .str p.AccepterVpcID),
        ("status", .str p.Status), ("tags", encodeTags p.Tags)]

/-- Unmarshal a `PeeringConnection`. -/
def decodePeering : Json → Option PeeringConnection
  | .obj fields => do
      let id ← getStr fields "id"
      let name ← getStr fields "name"
      let req ← getStr fields "requester_vpc_id"
      let acc ← getStr fields "accepter_vpc_id"
      let status ← getStr fields "status"
      let tags ← getTags fields "tags"
      pure { ID := id, Name := name, RequesterVpcID := req, AccepterVpcID := acc,
             Status := status, Tags := tags }
  | _ => none

/-- Marshal a `TransitGatewayAttachment`. -/
def encodeTGWAttachment (a : TransitGatewayAttachment) : Json :=
  .obj [("id", .str a.ID), ("transit_gateway_id", .str a.TransitGatewayID),
        ("resource_id", .str a.ResourceID), ("resource_type", .str a.ResourceType),
        ("state", .str a.State), ("tags", encodeTags a.Tags)]

/-- Unmarshal a `TransitGatewayAttachment`. -/
def decodeTGWAttachment : Json → Option TransitGatewayAttachment
  | .obj fields => do
      let id ← getStr fields "id"
      let tgwID ← getStr fields "transit_gateway_id"
      let resID ← getStr fields "resource_id"
      let resTy ← getStr fields "resource_type"
      let state ← getStr fields "state"
      let tags ← getTags fields "tags"
      pure { ID := id, TransitGatewayID := tgwID, ResourceID := resID,
             ResourceType := resTy, State := state, Tags := tags }
  | _ => none

/-- Marshal a `TransitGateway`. -/
def encodeTGW (t : TransitGateway) : Json :=
  .obj [("id", .str t.ID), ("name", .str t.Name), ("state", .str t.State),
        ("tags", encodeTags t.Tags),
        ("attachments", .arr (t.Attachments.map encodeTGWAttachment))]

/-- Unmarshal a `TransitGateway`. -/
def decodeTGW : Json → Option TransitGateway
  | .obj fields => do
      let id ← getStr fields "id"
      let name ← getStr fields "name"
      let state ← getStr fields "state"
      let tags ← getTags fields "tags"
      let attachments ← getListWith decodeTGWAttachment fields "attachments"
      pure { ID := id, Name := name, State := state, Tags := tags,
             Attachments := attachments }
  | _ => none

/-- Marshal an `InternetGateway`. -/
def encodeIGW (g : InternetGateway) : Json :=
  .obj [("id", .str g.ID), ("name", .str g.Name), ("vpc_id", .str g.VpcID),
        ("state", .str g.State), ("tags", encodeTags g.Tags)]

/-- Unmarshal an `InternetGateway`. -/
def decodeIGW : Json → Option InternetGateway
  | .obj fields => do
      let id ← getStr fields "id"
      let name ← getStr fields "name"
      let vpcID ← getStr fields "vpc_id"
      let state ← getStr fields "state"
      let tags ← getTags fields "tags"
      pure { ID := id, Name := name, VpcID := vpcID, State := state, Tags := tags }
  | _ => none

/-- Marshal a `NATGateway`. -/
def encodeNAT (g : NATGateway) : Json :=
  .obj [("id", .str g.ID), ("name", .str g.Name), ("vpc_id", .str g.VpcID),
        ("subnet_id", .str g.SubnetID), ("state", .str g.State),
        ("public_ip", .str g.PublicIP), ("private_ip", .str g.PrivateIP),
        ("connectivity_type", .str g.ConnectivityType), ("tags", encodeTags g.Tags)]

/-- Unmarshal a `NATGateway`. -/
def decodeNAT : Json → Option NATGateway
  | .obj fields => do
      let id ← getStr fields "id"
      let name ← getStr fields "name"
      let vpcID ← getStr fields "vpc_id"
      let subnetID ← getStr fields "subnet_id"
      let state ← getStr fields "state"
      let pubIP ← getStr fields "public_ip"
      let privIP ← getStr fields "private_ip"
      let connTy ← getStr fields "connectivity_type"
      let tags ← getTags fields "tags"
      pure { ID := id, Name := name, VpcID := vpcID, SubnetID := subnetID,
             State := state, PublicIP := pubIP, PrivateIP := privIP,
             ConnectivityType := connTy, Tags := tags }
  | _ => none

/-- Marshal a `Route`. -/
def encodeRoute (r : Route) : Json :=
  .obj [("destination_cidr", .str r.DestinationCidr), ("gateway_id", .str r.GatewayID),
        ("instance_id", .str r.InstanceID),
        ("network_interface_id", .str r.NetworkInterfaceID),
        ("vpc_peering_id", .str r.VpcPeeringID),
        ("transit_gateway_id", .str r.TransitGatewayID),
        ("state", .str r.State), ("origin", .str r.Origin)]

/-- Unmarshal a `Route`. -/
def decodeRoute : Json → Option Route
  | .obj fields => do
      let dest ← getStr fields "destination_cidr"
      let gwID ← getStr fields "gateway_id"
      let instID ← getStr fields "instance_id"
      let eniID ← getStr fields "network_interface_id"
      let pcxID ← getStr fields "vpc_peering_id"
      let tgwID ← getStr fields "transit_gateway_id"
      let state ← getStr fields "state"
      let origin ← getStr fields "origin"
      pure { DestinationCidr := dest, GatewayID := gwID, InstanceID := instID,
             NetworkInterfaceID := eniID, VpcPeeringID := pcxID,
             TransitGatewayID := tgwID, State := state, Origin := origin }
  | _ => none

/-- Marshal a `RouteTable`. -/
def encodeRouteTable (rt : RouteTable) : Json :=
  .obj [("id", .str rt.ID), ("name", .str rt.Name), ("vpc_id", .str rt.VpcID),
        ("is_main", .bool rt.IsMain), ("tags", encodeTags rt.Tags),
        ("routes", .arr (rt.Routes.map encodeRoute)),
        ("associations", encodeStrList rt.Associations)]

/-- Unmarshal a `RouteTable`. -/
def decodeRouteTable : Json → Option RouteTable
  | .obj fields => do
      let id ← getStr fields "id"
      let name ← getStr fields "name"
      let vpcID ← getStr fields "vpc_id"
      let isMain ← getBool fields "is_main"
      let tags ← getTags fields "tags"
      let routes ← getListWith decodeRoute fields "routes"
      let assocs ← getStrList fields "associations"
      pure { ID := id, Name := name, VpcID := vpcID, IsMain := isMain,
             Tags := tags, Routes := routes, Associations := assocs }
  | _ => none

/-- Marshal a `SecurityGroupRule`. -/
def encodeSGRule (r : SecurityGroupRule) : Json :=
  .obj [("ip_protocol", .str r.IpProtocol), ("from_port", .num r.FromPort),
        ("to_port", .num r.ToPort), ("cidr_blocks", encodeStrList r.CidrBlocks),
        ("ipv6_cidr_blocks", encodeStrList r.Ipv6CidrBlocks),
        ("prefix_list_ids", encodeStrList r.PrefixListIds),
        ("referenced_group_id", .str r.ReferencedGroupId),
        ("referenced_group_owner_id", .str r.ReferencedGroupOwnerId),
        ("description", .str r.Description), ("tags", encodeTags r.Tags)]

/-- Unmarshal a `SecurityGroupRule`. -/
def decodeSGRule : Json → Option SecurityGroupRule
  | .obj fields => do
      let proto ← getStr fields "ip_protocol"
      let fromPort ← getInt fields "from_port"
      let toPort ← getInt fields "to_port"
      let cidrs ← getStrList fields "cidr_blocks"
      let cidrs6 ← getStrList fields "ipv6_cidr_blocks"
      let prefixes ← getStrList fields "prefix_list_ids"
      let refID ← getStr fields "referenced_group_id"
      let refOwner ← getStr fields "referenced_group_owner_id"
      let desc ← getStr fields "description"
      let tags ← getTags fields "tags"
      pure { IpProtocol := proto, FromPort := fromPort, ToPort := toPort,
             CidrBlocks := cidrs, Ipv6CidrBlocks := cidrs6, PrefixListIds := prefixes,
             ReferencedGroupId := refID, ReferencedGroupOwnerId := refOwner,
             Description := desc, Tags := tags }
  | _ => none

/-- Marshal a `SecurityGroup`. -/
def encodeSG (g : SecurityGroup) : Json :=
  .obj [("id", .str g.ID), ("name", .str g.Name), ("description", .str g.Description),
        ("vpc_id", .str g.VpcID), ("tags", encodeTags g.Tags),
        ("ingress_rules", .arr (g.IngressRules.map encodeSGRule)),
        ("egress_rules", .arr (g.EgressRules.map encodeSGRule))]

/-- Unmarshal a `SecurityGroup`. -/
def decodeSG : Json → Option SecurityGroup
  | .obj fields => do
      let id ← getStr fields "id"
      let name ← getStr fields "name"
      let desc ← getStr fields "description"
      let vpcID ← getStr fields "vpc_id"
      let tags ← getTags fields "tags"
      let ingress ← getListWith decodeSGRule fields "ingress_rules"
      let egress ← getListWith decodeSGRule fields "egress_rules"
      pure { ID := id, Name := name, Description := desc, VpcID := vpcID,
             Tags := tags, IngressRules := ingress, EgressRules := egress }
  | _ => none

/-- Marshal an `IAMPolicy`. -/
def encodeIAMPolicy (p : IAMPolicy) : Json :=
  .obj [("arn", .str p.Arn), ("policy_name", .str p.PolicyName),
        ("policy_id", .str p.PolicyId), ("path", .str p.Path),
        ("default_version_id", .str p.DefaultVersionId),
        ("attachment_count", .num p.AttachmentCount),
        ("permissions_boundary_usage_count", .num p.PermissionsBoundaryUsageCount),
        ("is_attachable", .bool p.IsAttachable), ("description", .str p.Description),
        ("create_date", encodeTime p.CreateDate), ("update_date", encodeTime p.UpdateDate),
        ("tags", encodeTags p.Tags), ("policy_document", .str p.PolicyDocument)]

/-- Unmarshal an `IAMPolicy`. -/
def decodeIAMPolicy : Json → Option IAMPolicy
  | .obj fields => do
      let arn ← getStr fields "arn"
      let polName ← getStr fields "policy_name"
      let polID ← getStr fields "policy_id"
      let path ← getStr fields "path"
      let defVer ← getStr fields "default_version_id"
      let attCount ← getInt fields "attachment_count"
      let pbuCount ← getInt fields "permissions_boundary_usage_count"
      let attachable ← getBool fields "is_attachable"
      let desc ← getStr fields "description"
      let created ← getTime fields "create_date"
      let updated ← getTime fields "update_date"
      let tags ← getTags fields "tags"
      let doc ← getStr fields "policy_document"
      pure { Arn := arn, PolicyName := polName, PolicyId := polID, Path := path,
             DefaultVersionId := defVer, AttachmentCount := attCount,
             PermissionsBoundaryUsageCount := pbuCount, IsAttachable := attachable,
             Description := desc, CreateDate := created, UpdateDate := updated,
             Tags := tags, PolicyDocument := doc }
  | _ => none

/-- Marshal an `IAMInlinePolicy`. -/
def encodeIAMInlinePolicy (p : IAMInlinePolicy) : Json :=
  .obj [("policy_name", .str p.PolicyName), ("policy_document", .str p.PolicyDocument)]

/-- Unmarshal an `IAMInlinePolicy`. -/
def decodeIAMInlinePolicy : Json → Option IAMInlinePolicy
  | .obj fields => do
      let polName ← getStr fields "policy_name"
      let doc ← getStr fields "policy_document"
      pure { PolicyName := polName, PolicyDocument := doc }
  | _ => none

/-- Marshal an `IAMRole`. -/
def encodeIAMRole (r : IAMRole) : Json :=
  .obj [("id", .str r.ID), ("name", .str r.Name), ("path", .str r.Path),
        ("arn", .str r.Arn), ("description", .str r.Description),
        ("create_date", encodeTime r.CreateDate),
        ("assume_role_policy_document", .str r.AssumeRolePolicyDocument),
        ("max_session_duration", .num r.MaxSessionDuration),
        ("tags", encodeTags r.Tags),
        ("attached_policies", .arr (r.AttachedPolicies.map encodeIAMPolicy)),
        ("inline_policies", .arr (r.InlinePolicies.map encodeIAMInlinePolicy))]

/-- Unmarshal an `IAMRole`. -/
def decodeIAMRole : Json → Option IAMRole
  | .obj fields => do
      let id ← getStr fields "id"
      let name ← getStr fields "name"
      let path ← getStr fields "path"
      let arn ← getStr fields "arn"
      let desc ← getStr fields "description"
      let created ← getTime fields "create_date"
      let assumeDoc ← getStr fields "assume_role_policy_document"
      let maxDur ← getInt fields "max_session_duration"
      let tags ← getTags fields "tags"
      let attached ← getListWith decodeIAMPolicy fields "attached_policies"
      let inline ← getListWith decodeIAMInlinePolicy fields "inline_policies"
      pure { ID := id, Name := name, Path := path, Arn := arn, Description := desc,
             CreateDate := created, AssumeRolePolicyDocument := assumeDoc,
             MaxSessionDuration := maxDur, Tags := tags,
             AttachedPolicies := attached, InlinePolicies := inline }
  | _ => none

/-- Marshal a `NetworkAclPortRange`. -/
def encodePortRange (r : NetworkAclPortRange) : Json :=
  .obj [("from", .num r.From), ("to", .num r.To)]

/-- Unmarshal a `NetworkAclPortRange`. -/
def decodePortRange : Json → Option NetworkAclPortRange
  | .obj fields => do
      let lo ← getInt fields "from"
      let hi ← getInt fields "to"
      pure { From := lo, To := hi }
  | _ => none

/-- Marshal a `NetworkAclIcmpType`. -/
def encodeIcmpType (t : NetworkAclIcmpType) : Json :=
  .obj [("type", .num t.Type_), ("code", .num t.Code)]

/-- Unmarshal a `NetworkAclIcmpType`. -/
def decodeIcmpType : Json → Option NetworkAclIcmpType
  | .obj fields => do
      let ty ← getInt fields "type"
      let code ← getInt fields "code"
      pure { Type_ := ty, Code := code }
  | _ => none

/-- Marshal a `NetworkAclEntry`; the two pointer fields carry `omitempty`, so
a `nil` pointer is left out of the document. -/
def encodeNACLEntry (e : NetworkAclEntry) : Json :=
  .obj ([("rule_number", .num e.RuleNumber), ("protocol", .str e.Protocol),
         ("rule_action", .str e.RuleAction), ("cidr_block", .str e.CidrBlock),
         ("ipv6_cidr_block", .str e.Ipv6CidrBlock)]
    ++ (match e.PortRange with
        | none => []
        | some r => [("port_range", encodePortRange r)])
    ++ (match e.IcmpType with
        | none => []
        | some t => [("icmp_type", encodeIcmpType t)])
    ++ [("egress", .bool e.Egress)])

/-- Unmarshal a `NetworkAclEntry`. -/
def decodeNACLEntry : Json → Option NetworkAclEntry
  | .obj fields => do
      let ruleNum ← getInt fields "rule_number"
      let proto ← getStr fields "protocol"
      let action ← getStr fields "rule_action"
      let cidr ← getStr fields "cidr_block"
      let cidr6 ← getStr fields "ipv6_cidr_block"
      let portRange ← getOpt decodePortRange fields "port_range"
      let icmpTy ← getOpt decodeIcmpType fields "icmp_type"
      let egress ← getBool fields "egress"
      pure { RuleNumber := ruleNum, Protocol := proto, RuleAction := action,
             CidrBlock := cidr, Ipv6CidrBlock := cidr6, PortRange := portRange,
             IcmpType := icmpTy, Egress := egress }
  | _ => none

/-- Marshal a `NetworkAcl`. -/
def encodeNACL (a : NetworkAcl) : Json :=
  .obj [("id", .str a.ID), ("name", .str a.Name), ("vpc_id", .str a.VpcID),
        ("is_default", .bool a.IsDefault), ("tags", encodeTags a.Tags),
        ("entries", .arr (a.Entries.map encodeNACLEntry)),
        ("associations", encodeStrList a.Associations)]

/-- Unmarshal a `NetworkAcl`. -/
def decodeNACL : Json → Option NetworkAcl
  | .obj fields => do
      let id ← getStr fields "id"
      let name ← getStr fields "name"
      let vpcID ← getStr fields "vpc_id"
      let isDefault ← getBool fields "is_default"
      let tags ← getTags fields "tags"
      let entries ← getListWith decodeNACLEntry fields "entries"
      let assocs ← getStrList fields "associations"
      pure { ID := id, Name := name, VpcID := vpcID, IsDefault := isDefault,
             Tags := tags, Entries := entries, Associations := assocs }
  | _ => none

/-- Marshal a `Network`: the document `runScan` writes with `json.Marshal`. -/
def encodeNetwork (n : Network) : Json :=
  .obj [("vpcs", .arr (n.VPCs.map encodeVPC)),
        ("subnets", .arr (n.Subnets.map encodeSubnet)),
        ("peering_connections", .arr (n.PeeringConnections.map encodePeering)),
        ("transit_gateways", .arr (n.TransitGateways.map encodeTGW)),
        ("internet_gateways", .arr (n.InternetGateways.map encodeIGW)),
        ("nat_gateways", .arr (n.NATGateways.map encodeNAT)),
        ("route_tables", .arr (n.RouteTables.map encodeRouteTable)),
        ("security_groups", .arr (n.SecurityGroups.map encodeSG)),
        ("network_acls", .arr (n.NetworkAcls.map encodeNACL)),
        ("iam_roles", .arr (n.IAMRoles.map encodeIAMRole)),
        ("scan_time", encodeTime n.ScanTime),
        ("region", .str n.Region)]

/-- Unmarshal a `Network`. -/
def decodeNetwork : Json → Option Network
  | .obj fields => do
      let vpcs ← getListWith decodeVPC fields "vpcs"
      let subnets ← getListWith decodeSubnet fields "subnets"
      let peerings ← getListWith decodePeering fields "peering_connections"
      let tgws ← getListWith decodeTGW fields "transit_gateways"
      let igws ← getListWith decodeIGW fields "internet_gateways"
      let nats ← getListWith decodeNAT fields "nat_gateways"
      let rts ← getListWith decodeRouteTable fields "route_tables"
      let sgs ← getListWith decodeSG fields "security_groups"
      let nacls ← getListWith decodeNACL fields "network_acls"
      let roles ← getListWith decodeIAMRole fields "iam_roles"
      let scanTime ← getTime fields "scan_time"
      let region ← getStr fields "region"
      pure { VPCs := vpcs, Subnets := subnets, PeeringConnections := peerings,
             TransitGateways := tgws, InternetGateways := igws, NATGateways := nats,
             RouteTables := rts, SecurityGroups := sgs, NetworkAcls := nacls,
             IAMRoles := roles, ScanTime := scanTime, Region := region }
  | _ => none

/-- `Comparator.LoadWorkingState` on a stored document: parse the JSON back
into a `Network` (file I/O is a pass-through and is not modelled). -/
def LoadWorkingState (document : Json) : Option Network := decodeNetwork document

/-!
## Basic facts about the association-list map model
-/

theorem lookupKey_eq_none_of_not_mem {α : Type} {k : String} {m : List (String × α)}
    (h : k ∉ m.map Prod.fst) : lookupKey k m = none := by
  induction m with
  | nil => rfl
  | cons p rest ih =>
      obtain ⟨k0, v0⟩ := p
      simp only [List.map_cons, List.mem_cons, not_or] at h
      simp only [lookupKey, if_neg (Ne.symm h.1), ih h.2]

theorem mem_of_lookupKey_eq_some {α : Type} {k : String} {v : α} {m : List (String × α)}
    (h : lookupKey k m = some v) : (k, v) ∈ m := by
  induction m with
  | nil => simp [lookupKey] at h
  | cons p rest ih =>
      obtain ⟨k0, v0⟩ := p
      by_cases hk : k0 = k
      · subst hk
        simp only [lookupKey, if_true, eq_self_iff_true, Option.some.injEq] at h
        subst h
        exact List.mem_cons_self _ _
      · simp only [lookupKey, if_neg hk] at h
        exact List.mem_cons_of_mem _ (ih h)

theorem lookupKey_isNone_iff {α : Type} {k : String} {m : List (String × α)} :
    (lookupKey k m = none) ↔ k ∉ m.map Prod.fst := by
  induction m with
  | nil => simp [lookupKey]
  | cons p rest ih =>
      obtain ⟨k0, v0⟩ := p
      by_cases hk : k0 = k
      · subst hk
        simp [lookupKey]
      · simp only [lookupKey, if_neg hk, ih, List.map_cons, List.mem_cons, not_or]
        constructor
        · intro hmem
          exact ⟨fun he => hk he.symm, hmem⟩
        · intro hmem
          exact hmem.2

theorem lookupKey_eq_some_of_mem_nodup {α : Type} {k : String} {v : α}
    {m : List (String × α)} (hnd : (m.map Prod.fst).Nodup) (hmem : (k, v) ∈ m) :
    lookupKey k m = some v := by
  induction m with
  | nil => simp at hmem
  | cons p rest ih =>
      obtain ⟨k0, v0⟩ := p
      simp only [List.map_cons, List.nodup_cons] at hnd
      rcases List.mem_cons.mp hmem with h | h
      · rw [Prod.mk.injEq] at h
        obtain ⟨h1, h2⟩ := h
        subst h1
        subst h2
        simp [lookupKey]
      · have hk : k0 ≠ k := by
          intro he
          subst he
          exact hnd.1 (List.mem_map_of_mem Prod.fst h)
        simp only [lookupKey, if_neg hk]
        exact ih hnd.2 h

theorem map_fst_upsert {α : Type} (m : List (String × α)) (k : String) (v : α) :
    (upsert m k v).map Prod.fst =
      if k ∈ m.map Prod.fst then m.map Prod.fst else m.map Prod.fst ++ [k] := by
  induction m with
  | nil => simp [upsert]
  | cons p rest ih =>
      obtain ⟨k0, v0⟩ := p
      by_cases hk : k0 = k
      · subst hk
        simp [upsert]
      · have hne : ¬k = k0 := fun he => hk he.symm
        by_cases hmem : k ∈ rest.map Prod.fst
        · simp [upsert, if_neg hk, ih, hmem, hne]
        · simp [upsert, if_neg hk, ih, hmem, hne]

theorem upsert_eq_append_of_not_mem {α : Type} {m : List (String × α)} {k : String}
    (v : α) (h : k ∉ m.map Prod.fst) : upsert m k v = m ++ [(k, v)] := by
  induction m with
  | nil => rfl
  | cons p rest ih =>
      obtain ⟨k0, v0⟩ := p
      simp only [List.map_cons, List.mem_cons, not_or] at h
      simp [upsert, if_neg (Ne.symm h.1), ih h.2]

theorem nodup_map_fst_upsert {α : Type} {m : List (String × α)} (k : String) (v : α)
    (hnd : (m.map Prod.fst).Nodup) : ((upsert m k v).map Prod.fst).Nodup := by
  rw [map_fst_upsert]
  by_cases hmem : k ∈ m.map Prod.fst
  · simpa [hmem] using hnd
  · rw [if_neg hmem]
    refine List.Nodup.append hnd (List.nodup_singleton k) ?_
    intro a ha hb
    simp only [List.mem_singleton] at hb
    exact hmem (hb ▸ ha)

theorem buildMap_keys_nodup_aux {α : Type} (getID : α → String) (items : List α) :
    ∀ m : List (String × α), (m.map Prod.fst).Nodup →
      ((items.foldl (fun m item => upsert m (getID item) item) m).map Prod.fst).Nodup := by
  induction items with
  | nil => exact fun m h => h
  | cons x rest ih =>
      intro m hm
      exact ih _ (nodup_map_fst_upsert _ _ hm)

theorem buildMap_keys_nodup {α : Type} (getID : α → String) (items : List α) :
    ((buildMap getID items).map Prod.fst).Nodup :=
  buildMap_keys_nodup_aux getID items [] (by simp)

theorem mem_keys_foldl_upsert {α : Type} (getID : α → String) (items : List α)
    (k : String) :
    ∀ m : List (String × α),
      (k ∈ (items.foldl (fun m item => upsert m (getID item) item) m).map Prod.fst
        ↔ k ∈ m.map Prod.fst ∨ k ∈ items.map getID) := by
  induction items with
  | nil => simp
  | cons x rest ih =>
      intro m
      rw [List.foldl_cons, ih, map_fst_upsert]
      by_cases hmem : getID x ∈ m.map Prod.fst
      · rw [if_pos hmem]
        simp only [List.map_cons, List.mem_cons]
        constructor
        · rintro (h | h)
          · exact Or.inl h
          · exact Or.inr (Or.inr h)
        · rintro (h | h | h)
          · exact Or.inl h
          · exact Or.inl (h ▸ hmem)
          · exact Or.inr h
      · rw [if_neg hmem]
        simp only [List.mem_append, List.map_cons, List.mem_cons, List.mem_singleton]
        tauto

theorem mem_keys_buildMap {α : Type} (getID : α → String) (items : List α) (k : String) :
    k ∈ (buildMap getID items).map Prod.fst ↔ k ∈ items.map getID := by
  rw [buildMap, mem_keys_foldl_upsert]
  simp

theorem lookupKey_buildMap_eq_none_iff {α : Type} (getID : α → String)
    (items : List α) (k : String) :
    lookupKey k (buildMap getID items) = none ↔ k ∉ items.map getID := by
  rw [lookupKey_isNone_iff, mem_keys_buildMap]

theorem buildMap_eq_of_nodup_aux {α : Type} (getID : α → String) (items : List α) :
    ∀ m : List (String × α), (items.map getID).Nodup →
      (∀ x ∈ items, getID x ∉ m.map Prod.fst) →
      items.foldl (fun m item => upsert m (getID item) item) m
        = m ++ items.map fun x => (getID x, x) := by
  induction items with
  | nil => simp
  | cons x rest ih =>
      intro m hnd hdisj
      simp only [List.map_cons, List.nodup_cons] at hnd
      rw [List.foldl_cons, upsert_eq_append_of_not_mem x (hdisj x (by simp)),
        ih _ hnd.2]
      · simp
      · intro y hy
        simp only [List.map_append, List.mem_append]
        rintro (h | h)
        · exact hdisj y (List.mem_cons_of_mem _ hy) h
        · simp only [List.map_cons, List.map_nil, List.mem_singleton] at h
          exact hnd.1 (h ▸ List.mem_map_of_mem getID hy)

/-- With identifiers unique in the collection (the Snapshot invariant), the
identifier index is the collection itself, keyed. -/
theorem buildMap_eq_of_nodup {α : Type} (getID : α → String) (items : List α)
    (hnd : (items.map getID).Nodup) :
    buildMap getID items = items.map fun x => (getID x, x) := by
  simpa using buildMap_eq_of_nodup_aux getID items [] hnd (by simp)

theorem lookupKey_buildMap_of_mem_nodup {α : Type} {getID : α → String}
    {items : List α} {b : α} (hnd : (items.map getID).Nodup) (hb : b ∈ items) :
    lookupKey (getID b) (buildMap getID items) = some b := by
  apply lookupKey_eq_some_of_mem_nodup (buildMap_keys_nodup getID items)
  rw [buildMap_eq_of_nodup getID items hnd]
  exact List.mem_map_of_mem _ hb

theorem lookupKey_buildMap_isSome_of_mem {α : Type} {getID : α → String}
    {items : List α} {k : String} (hk : k ∈ items.map getID) :
    ∃ v, lookupKey k (buildMap getID items) = some v := by
  have h1 : ¬lookupKey k (buildMap getID items) = none := by
    rw [lookupKey_buildMap_eq_none_iff]
    exact fun hn => hn hk
  cases hv : lookupKey k (buildMap getID items) with
  | none => exact absurd hv h1
  | some v => exact ⟨v, rfl⟩

/-!
## Characterising `compareSlices`
-/

theorem filterMap_filter_key_none {α : Type} {id : String}
    (g : String × α → Option Difference)
    (hg : ∀ p d, g p = some d → d.ResourceID = p.1)
    (m : List (String × α)) (h : lookupKey id m = none) :
    ((m.filterMap g).filter fun d => d.ResourceID == id) = [] := by
  rw [List.filter_eq_nil_iff]
  intro d hd
  obtain ⟨p, hp, hgp⟩ := List.mem_filterMap.mp hd
  have hid : id ∉ m.map Prod.fst := lookupKey_isNone_iff.mp h
  have hne : p.1 ≠ id := fun he => hid (he ▸ List.mem_map_of_mem Prod.fst hp)
  have hdp : d.ResourceID = p.1 := hg _ _ hgp
  simp [hdp, hne]

theorem filterMap_filter_key_some {α : Type} {id : String} {v : α}
    (g : String × α → Option Difference)
    (hg : ∀ p d, g p = some d → d.ResourceID = p.1)
    (m : List (String × α)) (hnd : (m.map Prod.fst).Nodup)
    (h : lookupKey id m = some v) :
    ((m.filterMap g).filter fun d => d.ResourceID == id) = (g (id, v)).toList := by
  induction m with
  | nil => simp [lookupKey] at h
  | cons p rest ih =>
      obtain ⟨k0, v0⟩ := p
      simp only [List.map_cons, List.nodup_cons] at hnd
      by_cases hk : k0 = id
      · subst hk
        simp only [lookupKey, if_true, eq_self_iff_true, Option.some.injEq] at h
        subst h
        have hrest : lookupKey k0 rest = none := lookupKey_eq_none_of_not_mem hnd.1
        have hrestfilter :
            ((rest.filterMap g).filter fun d => d.ResourceID == k0) = [] :=
          filterMap_filter_key_none g hg rest hrest
        cases hgv : g (k0, v0) with
        | none =>
            simp only [List.filterMap_cons, hgv]
            rw [hrestfilter]
            rfl
        | some d =>
            have hd : d.ResourceID = k0 := hg _ _ hgv
            simp only [List.filterMap_cons, hgv, List.filter_cons]
            rw [hrestfilter]
            simp [hd]
      · have hne : ¬k0 = id := hk
        simp only [lookupKey, if_neg hne] at h
        have ihr := ih hnd.2 h
        cases hgv : g (k0, v0) with
        | none =>
            simp only [List.filterMap_cons, hgv]
            exact ihr
        | some d =>
            have hd : d.ResourceID = k0 := hg _ _ hgv
            simp only [List.filterMap_cons, hgv, List.filter_cons]
            have hfalse : (d.ResourceID == id) = false := by
              simp [hd, hne]
            rw [hfalse]
            simpa using ihr

/-- The differences `compareSlices` reports for one identifier: exactly one
`Added` when it is only in `current`, exactly one `Removed` when it is only in
`baseline`, exactly one `Modified` carrying the field details when it is in
both and the field comparison is non-empty, and nothing otherwise. -/
theorem compareSlices_filter_id {α : Type} (resourceType : String) (getID : α → String)
    (f : α → α → List String) (baseline current : List α) (id : String) :
    ((compareSlices resourceType getID f baseline current).filter
        fun d => d.ResourceID == id) =
      (match lookupKey id (buildMap getID baseline),
             lookupKey id (buildMap getID current) with
       | none, none => []
       | none, some _ =>
           [⟨.Added, resourceType, id,
             "New " ++ resourceType.toLower ++ " created", []⟩]
       | some _, none =>
           [⟨.Removed, resourceType, id,
             resourceType.toLower ++ " was deleted", []⟩]
       | some b, some c =>
           if (f b c).isEmpty then []
           else [⟨.Modified, resourceType, id,
                  resourceType.toLower ++ " configuration changed", f b c⟩]) := by
  have hgA : ∀ (p : String × α) (d : Difference),
      (if (lookupKey p.1 (buildMap getID baseline)).isNone then
        some (⟨.Added, resourceType, p.1,
          "New " ++ resourceType.toLower ++ " created", []⟩ : Difference)
       else none) = some d → d.ResourceID = p.1 := by
    intro p d hgd
    split at hgd
    · simp only [Option.some.injEq] at hgd
      subst hgd
      rfl
    · exact Option.noConfusion hgd
  have hgB : ∀ (p : String × α) (d : Difference),
      (if (lookupKey p.1 (buildMap getID current)).isNone then
        some (⟨.Removed, resourceType, p.1,
          resourceType.toLower ++ " was deleted", []⟩ : Difference)
       else none) = some d → d.ResourceID = p.1 := by
    intro p d hgd
    split at hgd
    · simp only [Option.some.injEq] at hgd
      subst hgd
      rfl
    · exact Option.noConfusion hgd
  have hgC : ∀ (p : String × α) (d : Difference),
      (match lookupKey p.1 (buildMap getID baseline) with
       | none => none
       | some baselineItem =>
           let details := f baselineItem p.2
           if details.isEmpty then none
           else some (⟨.Modified, resourceType, p.1,
             resourceType.toLower ++ " configuration changed", details⟩ : Difference))
        = some d → d.ResourceID = p.1 := by
    intro p d hgd
    split at hgd
    · exact Option.noConfusion hgd
    · dsimp only at hgd
      split at hgd
      · exact Option.noConfusion hgd
      · simp only [Option.some.injEq] at hgd
        subst hgd
        rfl
  unfold compareSlices
  rw [List.filter_append, List.filter_append]
  cases hb : lookupKey id (buildMap getID baseline) with
  | none =>
      cases hc : lookupKey id (buildMap getID current) with
      | none =>
          rw [filterMap_filter_key_none _ hgA _ hc,
              filterMap_filter_key_none _ hgB _ hb,
              filterMap_filter_key_none _ hgC _ hc]
          rfl
      | some c =>
          rw [filterMap_filter_key_some _ hgA _ (buildMap_keys_nodup getID current) hc,
              filterMap_filter_key_none _ hgB _ hb,
              filterMap_filter_key_some _ hgC _ (buildMap_keys_nodup getID current) hc]
          simp only [hb]
          simp
  | some b =>
      cases hc : lookupKey id (buildMap getID current) with
      | none =>
          rw [filterMap_filter_key_none _ hgA _ hc,
              filterMap_filter_key_some _ hgB _ (buildMap_keys_nodup getID baseline) hb,
              filterMap_filter_key_none _ hgC _ hc]
          simp only [hc]
          simp
      | some c =>
          rw [filterMap_filter_key_some _ hgA _ (buildMap_keys_nodup getID current) hc,
              filterMap_filter_key_some _ hgB _ (buildMap_keys_nodup getID baseline) hb,
              filterMap_filter_key_some _ hgC _ (buildMap_keys_nodup getID current) hc]
          simp only [hb, hc]
          cases hfe : (f b c).isEmpty <;> simp [hfe, hb]

/-!
## Reflexivity of the field walkers and of `Compare`
-/

theorem skipGuard_nil (fieldName : String) : skipGuard fieldName [] = [] := by
  unfold skipGuard
  split <;> rfl

theorem diffPrim_self {α : Type} [DecidableEq α] (gov : α → String) (path : String)
    (x : α) : diffPrim gov path x x = [] := by
  simp [diffPrim]

theorem diffSliceField_self {α : Type} [DecidableEq α] (path : String) (x : List α) :
    diffSliceField path x x = [] := by
  simp [diffSliceField]

theorem diffMapField_self (path : String) (x : TagMap) : diffMapField path x x = [] := by
  simp [diffMapField]

theorem diffTimeField_self (path : String) (x : GoTime) : diffTimeField path x x = [] := by
  simp [diffTimeField]

theorem compareStructsVPC_self (v : VPC) : compareStructsVPC v v = [] := by
  simp [compareStructsVPC, diffPrim_self, diffSliceField_self, diffMapField_self,
    skipGuard_nil]

theorem compareStructsSubnet_self (s : Subnet) : compareStructsSubnet s s = [] := by
  simp [compareStructsSubnet, diffPrim_self, diffMapField_self, skipGuard_nil]

theorem compareStructsPeering_self (p : PeeringConnection) :
    compareStructsPeering p p = [] := by
  simp [compareStructsPeering, diffPrim_self, diffMapField_self, skipGuard_nil]

theorem compareStructsTGW_self (t : TransitGateway) : compareStructsTGW t t = [] := by
  simp [compareStructsTGW, diffPrim_self, diffSliceField_self, diffMapField_self,
    skipGuard_nil]

theorem compareStructsIGW_self (g : InternetGateway) : compareStructsIGW g g = [] := by
  simp [compareStructsIGW, diffPrim_self, diffMapField_self, skipGuard_nil]

theorem compareStructsNAT_self (g : NATGateway) : compareStructsNAT g g = [] := by
  simp [compareStructsNAT, diffPrim_self, diffMapField_self, skipGuard_nil]

theorem compareStructsRouteTable_self (rt : RouteTable) :
    compareStructsRouteTable rt rt = [] := by
  simp [compareStructsRouteTable, diffPrim_self, diffSliceField_self, diffMapField_self,
    skipGuard_nil]

theorem compareStructsSG_self (g : SecurityGroup) : compareStructsSG g g = [] := by
  simp [compareStructsSG, diffPrim_self, diffSliceField_self, diffMapField_self,
    skipGuard_nil]

theorem compareStructsNACL_self (a : NetworkAcl) : compareStructsNACL a a = [] := by
  simp [compareStructsNACL, diffPrim_self, diffSliceField_self, diffMapField_self,
    skipGuard_nil]

theorem compareStructsIAMRole_self (r : IAMRole) : compareStructsIAMRole r r = [] := by
  simp [compareStructsIAMRole, diffPrim_self, diffSliceField_self, diffMapField_self,
    diffTimeField_self, skipGuard_nil]

/-- Comparing any collection with itself produces no differences, provided
the field comparison is reflexively empty. -/
theorem compareSlices_self {α : Type} (resourceType : String) (getID : α → String)
    (f : α → α → List String) (hrefl : ∀ x, f x x = []) (l : List α) :
    compareSlices resourceType getID f l l = [] := by
  unfold compareSlices
  have hself : ∀ p ∈ buildMap getID l, lookupKey p.1 (buildMap getID l) = some p.2 := by
    intro p hp
    exact lookupKey_eq_some_of_mem_nodup (buildMap_keys_nodup getID l) hp
  rw [List.append_eq_nil, List.append_eq_nil]
  refine ⟨⟨?_, ?_⟩, ?_⟩ <;> rw [List.filterMap_eq_nil_iff]
  · intro p hp
    rw [hself p hp]
    rfl
  · intro p hp
    rw [hself p hp]
    rfl
  · intro p hp
    rw [hself p hp]
    dsimp only
    rw [hrefl p.2]
    rfl

/-- C1: For every Snapshot `S`, `Compare(S, S)` returns the empty Difference
list (reflexivity), and comparing two Snapshots whose corresponding
collections are all empty also yields no Differences. -/
theorem claim_c1_compare_reflexive :
    (∀ S : Network, Compare S S = []) ∧
    (∀ (t1 t2 : GoTime) (r1 r2 : String),
      Compare ⟨[], [], [], [], [], [], [], [], [], [], t1, r1⟩
              ⟨[], [], [], [], [], [], [], [], [], [], t2, r2⟩ = []) := by
  constructor
  · intro S
    unfold Compare compareVPCs compareSubnets compareSecurityGroups compareNetworkAcls
      compareRouteTables comparePeeringConnections compareTransitGateways
      compareInternetGateways compareNATGateways compareIAMRoles
    rw [compareSlices_self _ _ _ compareStructsVPC_self,
        compareSlices_self _ _ _ compareStructsSubnet_self,
        compareSlices_self _ _ _ compareStructsSG_self,
        compareSlices_self _ _ _ compareStructsNACL_self,
        compareSlices_self _ _ _ compareStructsRouteTable_self,
        compareSlices_self _ _ _ compareStructsPeering_self,
        compareSlices_self _ _ _ compareStructsTGW_self,
        compareSlices_self _ _ _ compareStructsIGW_self,
        compareSlices_self _ _ _ compareStructsNAT_self,
        compareSlices_self _ _ _ compareStructsIAMRole_self]
    rfl
  · intro t1 t2 r1 r2
    rfl

/-- C2: For every pair of Snapshots and every resource-type collection, an
identifier present only in `current` produces exactly one `Added` Difference
with summary "New `<type>` created", and an identifier present only in
`baseline` produces exactly one `Removed` Difference with summary "`<type>`
was deleted"; both carry an empty detail list. -/
theorem claim_c2_added_removed {α : Type} (resourceType : String) (getID : α → String)
    (f : α → α → List String) (baseline current : List α) (id : String) :
    (id ∈ current.map getID → id ∉ baseline.map getID →
      ((compareSlices resourceType getID f baseline current).filter
          fun d => d.ResourceID == id)
        = [⟨.Added, resourceType, id,
            "New " ++ resourceType.toLower ++ " created", []⟩]) ∧
    (id ∈ baseline.map getID → id ∉ current.map getID →
      ((compareSlices resourceType getID f baseline current).filter
          fun d => d.ResourceID == id)
        = [⟨.Removed, resourceType, id,
            resourceType.toLower ++ " was deleted", []⟩]) := by
  constructor
  · intro hin hout
    obtain ⟨c, hc⟩ := lookupKey_buildMap_isSome_of_mem hin
    have hb : lookupKey id (buildMap getID baseline) = none :=
      (lookupKey_buildMap_eq_none_iff getID baseline id).mpr hout
    rw [compareSlices_filter_id, hb, hc]
  · intro hin hout
    obtain ⟨b, hb⟩ := lookupKey_buildMap_isSome_of_mem hin
    have hc : lookupKey id (buildMap getID current) = none :=
      (lookupKey_buildMap_eq_none_iff getID current id).mpr hout
    rw [compareSlices_filter_id, hb, hc]

/-- Witness for C2 at a concrete pair of VPC collections. -/
theorem claim_c2_witness :
    ("vpc-2" ∈ ([⟨"vpc-2", "", "10.0.0.0/16", "available", false, "", [], [], [], [], [], []⟩] :
        List VPC).map VPC.ID) ∧
    ("vpc-2" ∉ ([⟨"vpc-1", "", "10.0.0.0/16", "available", false, "", [], [], [], [], [], []⟩] :
        List VPC).map VPC.ID) ∧
    ((compareSlices "VPC" VPC.ID compareStructsVPC
        [⟨"vpc-1", "", "10.0.0.0/16", "available", false, "", [], [], [], [], [], []⟩]
        [⟨"vpc-2", "", "10.0.0.0/16", "available", false, "", [], [], [], [], [], []⟩]).filter
          fun d => d.ResourceID == "vpc-2")
      = [⟨.Added, "VPC", "vpc-2", "New " ++ "VPC".toLower ++ " created", []⟩] :=
  ⟨by decide, by decide,
    (claim_c2_added_removed "VPC" VPC.ID compareStructsVPC
        [⟨"vpc-1", "", "10.0.0.0/16", "available", false, "", [], [], [], [], [], []⟩]
        [⟨"vpc-2", "", "10.0.0.0/16", "available", false, "", [], [], [], [], [], []⟩]
        "vpc-2").1 (by decide) (by decide)⟩

/-!
## Characterising the field-level detail lines
-/

/-- Extensional agreement of two Go maps as `compareMaps` sees them: every
baseline key is still present, and every current entry looks up in the
baseline with the same value. -/
def mapAgrees (baseline current : TagMap) : Prop :=
  (∀ p ∈ baseline, lookupKey p.1 current ≠ none) ∧
  (∀ p ∈ current, lookupKey p.1 baseline = some p.2)

theorem compareMaps_eq_nil_iff (b c : TagMap) (path : String) :
    compareMaps b c path = [] ↔ mapAgrees b c := by
  unfold compareMaps mapAgrees
  rw [List.append_eq_nil, List.filterMap_eq_nil_iff, List.filterMap_eq_nil_iff]
  constructor
  · rintro ⟨h1, h2⟩
    constructor
    · intro p hp hnone
      have hx := h1 p hp
      rw [if_pos hnone] at hx
      exact Option.noConfusion hx
    · intro p hp
      have hx := h2 p hp
      cases hl : lookupKey p.1 b with
      | none =>
          rw [hl] at hx
          exact Option.noConfusion hx
      | some bv =>
          rw [hl] at hx
          dsimp only at hx
          by_cases hbv : bv = p.2
          · rw [hbv]
          · rw [if_neg hbv] at hx
            exact Option.noConfusion hx
  · rintro ⟨h1, h2⟩
    constructor
    · intro p hp
      rw [if_neg (h1 p hp)]
    · intro p hp
      rw [h2 p hp]
      dsimp only
      rw [if_pos rfl]

theorem diffPrim_eq_nil_iff {α : Type} [DecidableEq α] (gov : α → String)
    (path : String) (b c : α) : diffPrim gov path b c = [] ↔ b = c := by
  unfold diffPrim
  split <;> simp_all

theorem diffSliceField_eq_nil_iff {α : Type} [DecidableEq α] (path : String)
    (b c : List α) : diffSliceField path b c = [] ↔ b = c := by
  unfold diffSliceField compareSlicesReflect
  by_cases h : b = c
  · simp [h]
  · simp only [if_neg h]
    constructor
    · intro hx
      rw [List.append_eq_nil] at hx
      have := hx.2
      rw [if_pos (Or.inr h)] at this
      exact absurd this (by simp)
    · intro hx
      exact absurd hx h

theorem diffMapField_eq_nil_iff (path : String) (b c : TagMap) :
    diffMapField path b c = [] ↔ (b = c ∨ mapAgrees b c) := by
  unfold diffMapField
  by_cases h : b = c
  · simp [h]
  · rw [if_neg h, compareMaps_eq_nil_iff]
    constructor
    · exact Or.inr
    · rintro (hx | hx)
      · exact absurd hx h
      · exact hx

theorem diffTimeField_eq_nil (path : String) (b c : GoTime) :
    diffTimeField path b c = [] := by
  unfold diffTimeField compareTimeStructs
  split <;> rfl

theorem mem_compareStructsVPC_cidr (b c : VPC) (h : b.CidrBlock ≠ c.CidrBlock) :
    ("CidrBlock: " ++ b.CidrBlock ++ " → " ++ c.CidrBlock) ∈ compareStructsVPC b c := by
  simp [compareStructsVPC, skipGuard, shouldSkipField, diffPrim, govString, h]

theorem mem_compareStructsVPC_subnets (b c : VPC) (h : b.Subnets ≠ c.Subnets) :
    "Subnets: slice contents changed" ∈ compareStructsVPC b c := by
  simp [compareStructsVPC, skipGuard, shouldSkipField, diffSliceField,
    compareSlicesReflect, h]

theorem mem_compareStructsVPC_subnets_len (b c : VPC)
    (h : b.Subnets.length ≠ c.Subnets.length) :
    ("Subnets: length changed from " ++ toString b.Subnets.length
      ++ " to " ++ toString c.Subnets.length) ∈ compareStructsVPC b c := by
  have hne : b.Subnets ≠ c.Subnets := fun he => h (he ▸ rfl)
  simp [compareStructsVPC, skipGuard, shouldSkipField, diffSliceField,
    compareSlicesReflect, h, hne]

theorem mem_compareMaps_added (b c : TagMap) (path k v : String)
    (hb : lookupKey k b = none) (hc : lookupKey k c = some v) :
    (path ++ "[" ++ k ++ "]: key added with value " ++ v) ∈ compareMaps b c path := by
  unfold compareMaps
  rw [List.mem_append]
  right
  rw [List.mem_filterMap]
  refine ⟨(k, v), mem_of_lookupKey_eq_some hc, ?_⟩
  dsimp only
  rw [hb]

theorem mem_compareMaps_removed (b c : TagMap) (path k v : String)
    (hb : lookupKey k b = some v) (hc : lookupKey k c = none) :
    (path ++ "[" ++ k ++ "]: key removed") ∈ compareMaps b c path := by
  unfold compareMaps
  rw [List.mem_append]
  left
  rw [List.mem_filterMap]
  refine ⟨(k, v), mem_of_lookupKey_eq_some hb, ?_⟩
  dsimp only
  rw [if_pos hc]

theorem mem_compareMaps_changed (b c : TagMap) (path k v1 v2 : String)
    (hb : lookupKey k b = some v1) (hc : lookupKey k c = some v2) (hv : v1 ≠ v2) :
    (path ++ "[" ++ k ++ "]: " ++ v1 ++ " → " ++ v2) ∈ compareMaps b c path := by
  unfold compareMaps
  rw [List.mem_append]
  right
  rw [List.mem_filterMap]
  refine ⟨(k, v2), mem_of_lookupKey_eq_some hc, ?_⟩
  dsimp only
  rw [hb]
  dsimp only
  rw [if_neg hv]

theorem mem_compareStructsVPC_tags (b c : VPC) (line : String)
    (hne : b.Tags ≠ c.Tags) (hmem : line ∈ compareMaps b.Tags c.Tags "Tags") :
    line ∈ compareStructsVPC b c := by
  have hd : diffMapField "Tags" b.Tags c.Tags = compareMaps b.Tags c.Tags "Tags" := by
    unfold diffMapField
    rw [if_neg hne]
  simp [compareStructsVPC, skipGuard, shouldSkipField, hd, hmem]

theorem compareStructsVPC_eq_nil_iff (b c : VPC) :
    compareStructsVPC b c = [] ↔
      (b.ID = c.ID ∧ b.Name = c.Name ∧ b.CidrBlock = c.CidrBlock ∧ b.State = c.State ∧
       b.IsDefault = c.IsDefault ∧ b.DhcpOptionsID = c.DhcpOptionsID ∧
       (b.Tags = c.Tags ∨ mapAgrees b.Tags c.Tags) ∧
       b.Subnets = c.Subnets ∧ b.SecurityGroups = c.SecurityGroups ∧
       b.InternetGateways = c.InternetGateways ∧ b.NATGateways = c.NATGateways ∧
       b.NetworkAcls = c.NetworkAcls) := by
  simp [compareStructsVPC, skipGuard, shouldSkipField, List.append_eq_nil,
    diffPrim_eq_nil_iff, diffSliceField_eq_nil_iff, diffMapField_eq_nil_iff,
    and_assoc]

/-- C3: For an identifier present in both collections, exactly one `Modified`
Difference is emitted when any compared field differs, whose detail list is
the field comparison's output, and none when nothing differs; scalar fields
are reported as `path: old → new`, list fields as one combined
"slice contents changed" line plus a length note when the lengths differ, and
map fields per key (added, removed, changed value); the field walker is empty
exactly when all compared fields agree (maps extensionally). -/
theorem claim_c3_modified_details :
    (∀ (α : Type) (resourceType : String) (getID : α → String)
       (f : α → α → List String) (baseline current : List α) (id : String) (b c : α),
       (baseline.map getID).Nodup → (current.map getID).Nodup →
       b ∈ baseline → c ∈ current → getID b = id → getID c = id →
       ((compareSlices resourceType getID f baseline current).filter
           fun d => d.ResourceID == id)
         = (if (f b c).isEmpty then []
            else [⟨.Modified, resourceType, id,
                   resourceType.toLower ++ " configuration changed", f b c⟩])) ∧
    (∀ b c : VPC, b.CidrBlock ≠ c.CidrBlock →
       ("CidrBlock: " ++ b.CidrBlock ++ " → " ++ c.CidrBlock) ∈ compareStructsVPC b c) ∧
    (∀ b c : VPC, b.Subnets ≠ c.Subnets →
       "Subnets: slice contents changed" ∈ compareStructsVPC b c) ∧
    (∀ b c : VPC, b.Subnets.length ≠ c.Subnets.length →
       ("Subnets: length changed from " ++ toString b.Subnets.length
         ++ " to " ++ toString c.Subnets.length) ∈ compareStructsVPC b c) ∧
    (∀ (b c : VPC) (k v : String), lookupKey k b.Tags = none →
       lookupKey k c.Tags = some v →
       ("Tags[" ++ k ++ "]: key added with value " ++ v) ∈ compareStructsVPC b c) ∧
    (∀ (b c : VPC) (k v : String), lookupKey k b.Tags = some v →
       lookupKey k c.Tags = none →
       ("Tags[" ++ k ++ "]: key removed") ∈ compareStructsVPC b c) ∧
    (∀ (b c : VPC) (k v1 v2 : String), lookupKey k b.Tags = some v1 →
       lookupKey k c.Tags = some v2 → v1 ≠ v2 →
       ("Tags[" ++ k ++ "]: " ++ v1 ++ " → " ++ v2) ∈ compareStructsVPC b c) ∧
    (∀ b c : VPC, compareStructsVPC b c = [] ↔
      (b.ID = c.ID ∧ b.Name = c.Name ∧ b.CidrBlock = c.CidrBlock ∧ b.State = c.State ∧
       b.IsDefault = c.IsDefault ∧ b.DhcpOptionsID = c.DhcpOptionsID ∧
       (b.Tags = c.Tags ∨ mapAgrees b.Tags c.Tags) ∧
       b.Subnets = c.Subnets ∧ b.SecurityGroups = c.SecurityGroups ∧
       b.InternetGateways = c.InternetGateways ∧ b.NATGateways = c.NATGateways ∧
       b.NetworkAcls = c.NetworkAcls)) := by
  refine ⟨?_, mem_compareStructsVPC_cidr, mem_compareStructsVPC_subnets,
    mem_compareStructsVPC_subnets_len, ?_, ?_, ?_, compareStructsVPC_eq_nil_iff⟩
  · intro α resourceType getID f baseline current id b c hndb hndc hb hc hib hic
    have hlb : lookupKey id (buildMap getID baseline) = some b := by
      rw [← hib]
      exact lookupKey_buildMap_of_mem_nodup hndb hb
    have hlc : lookupKey id (buildMap getID current) = some c := by
      rw [← hic]
      exact lookupKey_buildMap_of_mem_nodup hndc hc
    rw [compareSlices_filter_id, hlb, hlc]
  · intro b c k v hbk hck
    have hne : b.Tags ≠ c.Tags := by
      intro he
      rw [he] at hbk
      rw [hbk] at hck
      exact Option.noConfusion hck
    exact mem_compareStructsVPC_tags b c _ hne (mem_compareMaps_added _ _ _ _ _ hbk hck)
  · intro b c k v hbk hck
    have hne : b.Tags ≠ c.Tags := by
      intro he
      rw [he] at hbk
      rw [hbk] at hck
      exact Option.noConfusion hck
    exact mem_compareStructsVPC_tags b c _ hne (mem_compareMaps_removed _ _ _ _ _ hbk hck)
  · intro b c k v1 v2 hbk hck hv
    have hne : b.Tags ≠ c.Tags := by
      intro he
      rw [he] at hbk
      have hx : some v1 = some v2 := hbk.symm.trans hck
      exact hv (Option.some.inj hx)
    exact mem_compareStructsVPC_tags b c _ hne
      (mem_compareMaps_changed _ _ _ _ _ _ hbk hck hv)

/-- Witness for C3 at a concrete pair of VPC collections differing in one
scalar field. -/
theorem claim_c3_witness :
    ((([⟨"vpc-1", "", "10.0.0.0/16", "", false, "", [], [], [], [], [], []⟩] :
        List VPC).map VPC.ID).Nodup) ∧
    ((([⟨"vpc-1", "", "10.1.0.0/16", "", false, "", [], [], [], [], [], []⟩] :
        List VPC).map VPC.ID).Nodup) ∧
    ((⟨"vpc-1", "", "10.0.0.0/16", "", false, "", [], [], [], [], [], []⟩ : VPC) ∈
      ([⟨"vpc-1", "", "10.0.0.0/16", "", false, "", [], [], [], [], [], []⟩] : List VPC)) ∧
    ((⟨"vpc-1", "", "10.1.0.0/16", "", false, "", [], [], [], [], [], []⟩ : VPC) ∈
      ([⟨"vpc-1", "", "10.1.0.0/16", "", false, "", [], [], [], [], [], []⟩] : List VPC)) ∧
    (((compareSlices "VPC" VPC.ID compareStructsVPC
        [⟨"vpc-1", "", "10.0.0.0/16", "", false, "", [], [], [], [], [], []⟩]
        [⟨"vpc-1", "", "10.1.0.0/16", "", false, "", [], [], [], [], [], []⟩]).filter
          fun d => d.ResourceID == "vpc-1")
      = (if (compareStructsVPC
              ⟨"vpc-1", "", "10.0.0.0/16", "", false, "", [], [], [], [], [], []⟩
              ⟨"vpc-1", "", "10.1.0.0/16", "", false, "", [], [], [], [], [], []⟩).isEmpty
         then []
         else [⟨.Modified, "VPC", "vpc-1", "VPC".toLower ++ " configuration changed",
                compareStructsVPC
                  ⟨"vpc-1", "", "10.0.0.0/16", "", false, "", [], [], [], [], [], []⟩
                  ⟨"vpc-1", "", "10.1.0.0/16", "", false, "", [], [], [], [], [], []⟩⟩])) :=
  ⟨by decide, by decide, by decide, by decide,
    claim_c3_modified_details.1 VPC "VPC" VPC.ID compareStructsVPC
      [⟨"vpc-1", "", "10.0.0.0/16", "", false, "", [], [], [], [], [], []⟩]
      [⟨"vpc-1", "", "10.1.0.0/16", "", false, "", [], [], [], [], [], []⟩]
      "vpc-1"
      ⟨"vpc-1", "", "10.0.0.0/16", "", false, "", [], [], [], [], [], []⟩
      ⟨"vpc-1", "", "10.1.0.0/16", "", false, "", [], [], [], [], [], []⟩
      (by decide) (by decide) (by decide) (by decide) (by decide) (by decide)⟩

/-!
## The timestamp skip list (claim C4)
-/

theorem compareSlices_singleton_same_id_nil {α : Type} (resourceType : String)
    (getID : α → String) (f : α → α → List String) (b c : α)
    (hid : getID b = getID c) (hf : f b c = []) :
    compareSlices resourceType getID f [b] [c] = [] := by
  simp [compareSlices, buildMap, upsert, lookupKey, hid, hf]

theorem compareSlices_singleton_same_id_modified {α : Type} (resourceType : String)
    (getID : α → String) (f : α → α → List String) (b c : α)
    (hid : getID b = getID c) (hf : f b c ≠ []) :
    compareSlices resourceType getID f [b] [c]
      = [⟨.Modified, resourceType, getID c,
          resourceType.toLower ++ " configuration changed", f b c⟩] := by
  have hfe : (f b c).isEmpty = false := by
    cases hx : f b c with
    | nil => exact absurd hx hf
    | cons a l => rfl
  simp [compareSlices, buildMap, upsert, lookupKey, hid, hfe, List.filterMap_cons, hf]

/-- C4 counterexample: two IAM roles identical except for the `UpdateDate`
timestamp of their one attached policy.  The slice field `AttachedPolicies` is
compared opaquely by deep equality, which does not apply the skip list, so the
comparison emits a `Modified` Difference instead of the claimed zero. -/
theorem claim_c4_counterexample :
    (compareIAMRoles
        [⟨"role-1", "r", "/", "arn:r", "", ⟨0⟩, "{}", 3600, [],
          [⟨"arn:p", "pol", "pid", "/", "v1", 0, 0, true, "", ⟨0⟩, ⟨0⟩, [], "{}"⟩], []⟩]
        [⟨"role-1", "r", "/", "arn:r", "", ⟨0⟩, "{}", 3600, [],
          [⟨"arn:p", "pol", "pid", "/", "v1", 0, 0, true, "", ⟨0⟩, ⟨1⟩, [], "{}"⟩], []⟩]
      = [⟨.Modified, "IAMRole", "role-1", "IAMRole".toLower ++ " configuration changed",
          ["AttachedPolicies: slice contents changed"]⟩]) ∧
    compareIAMRoles
        [⟨"role-1", "r", "/", "arn:r", "", ⟨0⟩, "{}", 3600, [],
          [⟨"arn:p", "pol", "pid", "/", "v1", 0, 0, true, "", ⟨0⟩, ⟨0⟩, [], "{}"⟩], []⟩]
        [⟨"role-1", "r", "/", "arn:r", "", ⟨0⟩, "{}", 3600, [],
          [⟨"arn:p", "pol", "pid", "/", "v1", 0, 0, true, "", ⟨0⟩, ⟨1⟩, [], "{}"⟩], []⟩]
      ≠ [] := by
  have hdetail : compareStructsIAMRole
      ⟨"role-1", "r", "/", "arn:r", "", ⟨0⟩, "{}", 3600, [],
        [⟨"arn:p", "pol", "pid", "/", "v1", 0, 0, true, "", ⟨0⟩, ⟨0⟩, [], "{}"⟩], []⟩
      ⟨"role-1", "r", "/", "arn:r", "", ⟨0⟩, "{}", 3600, [],
        [⟨"arn:p", "pol", "pid", "/", "v1", 0, 0, true, "", ⟨0⟩, ⟨1⟩, [], "{}"⟩], []⟩
      = ["AttachedPolicies: slice contents changed"] := by decide
  have heq := compareSlices_singleton_same_id_modified "IAMRole" IAMRole.ID
    compareStructsIAMRole
    ⟨"role-1", "r", "/", "arn:r", "", ⟨0⟩, "{}", 3600, [],
      [⟨"arn:p", "pol", "pid", "/", "v1", 0, 0, true, "", ⟨0⟩, ⟨0⟩, [], "{}"⟩], []⟩
    ⟨"role-1", "r", "/", "arn:r", "", ⟨0⟩, "{}", 3600, [],
      [⟨"arn:p", "pol", "pid", "/", "v1", 0, 0, true, "", ⟨0⟩, ⟨1⟩, [], "{}"⟩], []⟩
    rfl (by rw [hdetail]; simp)
  constructor
  · rw [compareIAMRoles, heq, hdetail]
  · rw [compareIAMRoles, heq]
    simp

/-- C4 amended: the timestamp exclusion applies at every struct level reached
by field recursion, regardless of resource type, so two roles identical
except in the top-level `CreateDate` produce zero Differences, and a single
change to another scalar field produces exactly one `Modified` Difference
naming that field; but a timestamp nested inside a list-typed field is
compared opaquely by deep equality and produces one `Modified` Difference
reporting the list field's contents changed. -/
theorem claim_c4_amended :
    (∀ b c : IAMRole, b.ID = c.ID → b.Name = c.Name → b.Path = c.Path →
       b.Arn = c.Arn → b.Description = c.Description →
       b.AssumeRolePolicyDocument = c.AssumeRolePolicyDocument →
       b.MaxSessionDuration = c.MaxSessionDuration → b.Tags = c.Tags →
       b.AttachedPolicies = c.AttachedPolicies → b.InlinePolicies = c.InlinePolicies →
       compareStructsIAMRole b c = [] ∧ compareIAMRoles [b] [c] = []) ∧
    (∀ b c : IAMRole, b.ID = c.ID → b.Name = c.Name → b.Path = c.Path →
       b.Arn = c.Arn → b.CreateDate = c.CreateDate →
       b.AssumeRolePolicyDocument = c.AssumeRolePolicyDocument →
       b.MaxSessionDuration = c.MaxSessionDuration → b.Tags = c.Tags →
       b.AttachedPolicies = c.AttachedPolicies → b.InlinePolicies = c.InlinePolicies →
       b.Description ≠ c.Description →
       compareIAMRoles [b] [c]
         = [⟨.Modified, "IAMRole", c.ID, "IAMRole".toLower ++ " configuration changed",
             ["Description: " ++ b.Description ++ " → " ++ c.Description]⟩]) ∧
    (∀ b c : IAMRole, b.ID = c.ID → b.Name = c.Name → b.Path = c.Path →
       b.Arn = c.Arn → b.Description = c.Description → b.CreateDate = c.CreateDate →
       b.AssumeRolePolicyDocument = c.AssumeRolePolicyDocument →
       b.MaxSessionDuration = c.MaxSessionDuration → b.Tags = c.Tags →
       b.InlinePolicies = c.InlinePolicies →
       b.AttachedPolicies ≠ c.AttachedPolicies →
       b.AttachedPolicies.length = c.AttachedPolicies.length →
       compareIAMRoles [b] [c]
         = [⟨.Modified, "IAMRole", c.ID, "IAMRole".toLower ++ " configuration changed",
             ["AttachedPolicies: slice contents changed"]⟩]) := by
  refine ⟨?_, ?_, ?_⟩
  · intro b c h1 h2 h3 h4 h5 h6 h7 h8 h9 h10
    have hnil : compareStructsIAMRole b c = [] := by
      simp [compareStructsIAMRole, skipGuard, shouldSkipField, diffPrim_self,
        diffSliceField_self, diffMapField_self, h1, h2, h3, h4, h5, h6, h7, h8, h9, h10]
    exact ⟨hnil, compareSlices_singleton_same_id_nil _ _ _ _ _ (by rw [h1]) hnil⟩
  · intro b c h1 h2 h3 h4 h5 h6 h7 h8 h9 h10 hd
    have hdetail : compareStructsIAMRole b c
        = ["Description: " ++ b.Description ++ " → " ++ c.Description] := by
      simp [compareStructsIAMRole, skipGuard, shouldSkipField, diffPrim, govString,
        diffSliceField_self, diffMapField_self, diffTimeField_self,
        h1, h2, h3, h4, h5, h6, h7, h8, h9, h10, hd]
    have := compareSlices_singleton_same_id_modified "IAMRole" IAMRole.ID
      compareStructsIAMRole b c (by rw [h1]) (by rw [hdetail]; simp)
    rw [compareIAMRoles, this, hdetail]
  · intro b c h1 h2 h3 h4 h5 h6 h7 h8 h9 h10 hap hlen
    have hdetail : compareStructsIAMRole b c
        = ["AttachedPolicies: slice contents changed"] := by
      simp [compareStructsIAMRole, skipGuard, shouldSkipField, diffPrim, govString,
        diffSliceField, compareSlicesReflect, diffMapField_self, diffTimeField_self,
        h1, h2, h3, h4, h5, h6, h7, h8, h9, h10, hap, hlen]
    have := compareSlices_singleton_same_id_modified "IAMRole" IAMRole.ID
      compareStructsIAMRole b c (by rw [h1]) (by rw [hdetail]; simp)
    rw [compareIAMRoles, this, hdetail]

/-- Witness for the amended C4: a pure `CreateDate` change yields no
differences; a pure `Description` change yields exactly one `Modified`
difference naming `Description`. -/
theorem claim_c4_amended_witness :
    (compareStructsIAMRole
        ⟨"role-1", "r", "/", "arn:r", "", ⟨0⟩, "{}", 3600, [], [], []⟩
        ⟨"role-1", "r", "/", "arn:r", "", ⟨5⟩, "{}", 3600, [], [], []⟩ = [] ∧
     compareIAMRoles
        [⟨"role-1", "r", "/", "arn:r", "", ⟨0⟩, "{}", 3600, [], [], []⟩]
        [⟨"role-1", "r", "/", "arn:r", "", ⟨5⟩, "{}", 3600, [], [], []⟩] = []) ∧
    (compareIAMRoles
        [⟨"role-1", "r", "/", "arn:r", "old", ⟨0⟩, "{}", 3600, [], [], []⟩]
        [⟨"role-1", "r", "/", "arn:r", "new", ⟨0⟩, "{}", 3600, [], [], []⟩]
      = [⟨.Modified, "IAMRole", "role-1", "IAMRole".toLower ++ " configuration changed",
          ["Description: " ++ "old" ++ " → " ++ "new"]⟩]) :=
  ⟨claim_c4_amended.1
      ⟨"role-1", "r", "/", "arn:r", "", ⟨0⟩, "{}", 3600, [], [], []⟩
      ⟨"role-1", "r", "/", "arn:r", "", ⟨5⟩, "{}", 3600, [], [], []⟩
      rfl rfl rfl rfl rfl rfl rfl rfl rfl rfl,
   claim_c4_amended.2.1
      ⟨"role-1", "r", "/", "arn:r", "old", ⟨0⟩, "{}", 3600, [], [], []⟩
      ⟨"role-1", "r", "/", "arn:r", "new", ⟨0⟩, "{}", 3600, [], [], []⟩
      rfl rfl rfl rfl rfl rfl rfl rfl rfl rfl (by decide)⟩

/-!
## Subnet classification (claims C5 and C10)
-/

/-- An "internet gateway route": `igw-` prefixed gateway reference naming an
Internet Gateway present in the gateway set, with the default destination. -/
def isInternetGatewayRoute (igws : List InternetGateway) (r : Route) : Prop :=
  goHasPrefix r.GatewayID "igw-" = true ∧ (∃ g ∈ igws, g.ID = r.GatewayID) ∧
    r.DestinationCidr = "0.0.0.0/0"

/-- A "NAT route": `nat-` prefixed gateway reference with the default
destination.  No gateway collection is consulted. -/
def isNATRoute (r : Route) : Prop :=
  goHasPrefix r.GatewayID "nat-" = true ∧ r.DestinationCidr = "0.0.0.0/0"

theorem hasIGWRoute_iff (rt : RouteTable) (igws : List InternetGateway) :
    (rt.Routes.any fun route =>
      goHasPrefix route.GatewayID "igw-"
        && igws.any fun igw =>
             igw.ID == route.GatewayID && route.DestinationCidr == "0.0.0.0/0") = true
      ↔ ∃ r ∈ rt.Routes, isInternetGatewayRoute igws r := by
  simp only [List.any_eq_true, Bool.and_eq_true, beq_iff_eq, isInternetGatewayRoute]
  tauto

theorem hasNATRoute_iff (rt : RouteTable) :
    (rt.Routes.any fun route =>
      goHasPrefix route.GatewayID "nat-" && route.DestinationCidr == "0.0.0.0/0") = true
      ↔ ∃ r ∈ rt.Routes, isNATRoute r := by
  simp only [List.any_eq_true, Bool.and_eq_true, beq_iff_eq, isNATRoute]

theorem determineSubnetType_iff_all (rt : RouteTable) (igws : List InternetGateway) :
    (determineSubnetType rt igws = "public" ↔
      ∃ r ∈ rt.Routes, isInternetGatewayRoute igws r) ∧
    (determineSubnetType rt igws = "private" ↔
      (¬(∃ r ∈ rt.Routes, isInternetGatewayRoute igws r) ∧
        ∃ r ∈ rt.Routes, isNATRoute r)) ∧
    (determineSubnetType rt igws = "isolated" ↔
      (¬(∃ r ∈ rt.Routes, isInternetGatewayRoute igws r) ∧
        ¬∃ r ∈ rt.Routes, isNATRoute r)) := by
  rw [← hasIGWRoute_iff rt igws, ← hasNATRoute_iff rt]
  unfold determineSubnetType
  by_cases ha : (rt.Routes.any fun route =>
      goHasPrefix route.GatewayID "igw-"
        && igws.any fun igw =>
             igw.ID == route.GatewayID && route.DestinationCidr == "0.0.0.0/0") = true
  · simp [ha]
  · by_cases hb : (rt.Routes.any fun route =>
        goHasPrefix route.GatewayID "nat-"
          && route.DestinationCidr == "0.0.0.0/0") = true
    · simp [ha, hb]
    · simp [ha, hb]

theorem any_eq_of_perm {α : Type} {l1 l2 : List α} (h : l1.Perm l2) (p : α → Bool) :
    l1.any p = l2.any p := by
  rw [Bool.eq_iff_iff]
  simp only [List.any_eq_true]
  constructor
  · rintro ⟨x, hx, hp⟩
    exact ⟨x, h.mem_iff.mp hx, hp⟩
  · rintro ⟨x, hx, hp⟩
    exact ⟨x, h.mem_iff.mpr hx, hp⟩

theorem updateSubnetTypes_no_route_table (net : Network) (s : Subnet)
    (hs : s ∈ net.Subnets)
    (h1 : ∀ rt ∈ net.RouteTables, s.ID ∉ rt.Associations)
    (h2 : ∀ rt ∈ net.RouteTables, ¬(rt.VpcID = s.VpcID ∧ rt.IsMain = true)) :
    { s with Type_ := "isolated" } ∈ (updateSubnetTypes net).Subnets := by
  have hresolve : resolveRouteTable net.RouteTables s = none := by
    unfold resolveRouteTable
    have hf1 : net.RouteTables.find?
        (fun rt => rt.Associations.any fun a => a == s.ID) = none := by
      rw [List.find?_eq_none]
      intro rt hrt
      intro hany
      obtain ⟨a, ha, he⟩ := List.any_eq_true.mp hany
      exact h1 rt hrt ((beq_iff_eq.mp he) ▸ ha)
    rw [hf1, List.find?_eq_none]
    intro rt hrt
    simp only [Bool.and_eq_true, beq_iff_eq, not_and]
    intro hv hm
    exact h2 rt hrt ⟨hv, hm⟩
  have hupd : updateOneSubnet net s = { s with Type_ := "isolated" } := by
    unfold updateOneSubnet
    rw [hresolve]
  have hmem : updateOneSubnet net s ∈ (net.Subnets.map (updateOneSubnet net)) :=
    List.mem_map_of_mem _ hs
  rw [hupd] at hmem
  exact hmem

/-- C5: `determineSubnetType` is a total function into
{public, private, isolated}: public iff some default route references an
`igw-` gateway present in the gateway set, otherwise private iff some default
route references a `nat-` gateway, otherwise isolated; the decision does not
depend on route declaration order; and a subnet with no explicitly associated
route table and no main route table in its VPC is classified isolated with no
error case. -/
theorem claim_c5_subnet_classification :
    (∀ (rt : RouteTable) (igws : List InternetGateway),
      determineSubnetType rt igws = "public" ∨
      determineSubnetType rt igws = "private" ∨
      determineSubnetType rt igws = "isolated") ∧
    (∀ (rt : RouteTable) (igws : List InternetGateway),
      (determineSubnetType rt igws = "public" ↔
        ∃ r ∈ rt.Routes, isInternetGatewayRoute igws r) ∧
      (determineSubnetType rt igws = "private" ↔
        (¬(∃ r ∈ rt.Routes, isInternetGatewayRoute igws r) ∧
          ∃ r ∈ rt.Routes, isNATRoute r)) ∧
      (determineSubnetType rt igws = "isolated" ↔
        (¬(∃ r ∈ rt.Routes, isInternetGatewayRoute igws r) ∧
          ¬∃ r ∈ rt.Routes, isNATRoute r))) ∧
    (∀ (rt1 rt2 : RouteTable) (igws : List InternetGateway),
      rt1.Routes.Perm rt2.Routes →
      determineSubnetType rt1 igws = determineSubnetType rt2 igws) ∧
    (∀ (net : Network) (s : Subnet), s ∈ net.Subnets →
      (∀ rt ∈ net.RouteTables, s.ID ∉ rt.Associations) →
      (∀ rt ∈ net.RouteTables, ¬(rt.VpcID = s.VpcID ∧ rt.IsMain = true)) →
      { s with Type_ := "isolated" } ∈ (updateSubnetTypes net).Subnets) ∧
    (∀ net : Network, (updateSubnetTypes net).Subnets.length = net.Subnets.length) := by
  refine ⟨?_, determineSubnetType_iff_all, ?_, updateSubnetTypes_no_route_table, ?_⟩
  · intro rt igws
    unfold determineSubnetType
    by_cases ha : (rt.Routes.any fun route =>
        goHasPrefix route.GatewayID "igw-"
          && igws.any fun igw =>
               igw.ID == route.GatewayID && route.DestinationCidr == "0.0.0.0/0") = true
    · simp [ha]
    · by_cases hb : (rt.Routes.any fun route =>
          goHasPrefix route.GatewayID "nat-"
            && route.DestinationCidr == "0.0.0.0/0") = true
      · simp [ha, hb]
      · simp [ha, hb]
  · intro rt1 rt2 igws h
    unfold determineSubnetType
    rw [any_eq_of_perm h, any_eq_of_perm h]
  · intro net
    unfold updateSubnetTypes
    exact List.length_map _ _

/-- Witness for C5: route order does not change the classification of a
concrete two-route table, and a concrete subnet with no resolvable route
table comes out isolated. -/
theorem claim_c5_witness :
    (([⟨"0.0.0.0/0", "nat-1", "", "", "", "", "", ""⟩,
       ⟨"10.0.0.0/16", "local", "", "", "", "", "", ""⟩] : List Route).Perm
      [⟨"10.0.0.0/16", "local", "", "", "", "", "", ""⟩,
       ⟨"0.0.0.0/0", "nat-1", "", "", "", "", "", ""⟩]) ∧
    (determineSubnetType
        ⟨"rtb-1", "", "vpc-1", false, [],
          [⟨"0.0.0.0/0", "nat-1", "", "", "", "", "", ""⟩,
           ⟨"10.0.0.0/16", "local", "", "", "", "", "", ""⟩], []⟩ []
      = determineSubnetType
        ⟨"rtb-1", "", "vpc-1", false, [],
          [⟨"10.0.0.0/16", "local", "", "", "", "", "", ""⟩,
           ⟨"0.0.0.0/0", "nat-1", "", "", "", "", "", ""⟩], []⟩ []) ∧
    ((⟨"subnet-1", "", "vpc-1", "10.0.1.0/24", "", "", false, [], "", "", "isolated"⟩ : Subnet) ∈
      (updateSubnetTypes
        ⟨[], [⟨"subnet-1", "", "vpc-1", "10.0.1.0/24", "", "", false, [], "", "", ""⟩],
         [], [], [], [], [⟨"rtb-other", "", "vpc-2", true, [], [], ["subnet-9"]⟩],
         [], [], [], ⟨0⟩, "us-east-1"⟩).Subnets) :=
  ⟨List.Perm.swap _ _ _,
   claim_c5_subnet_classification.2.2.1
     ⟨"rtb-1", "", "vpc-1", false, [],
       [⟨"0.0.0.0/0", "nat-1", "", "", "", "", "", ""⟩,
        ⟨"10.0.0.0/16", "local", "", "", "", "", "", ""⟩], []⟩
     ⟨"rtb-1", "", "vpc-1", false, [],
       [⟨"10.0.0.0/16", "local", "", "", "", "", "", ""⟩,
        ⟨"0.0.0.0/0", "nat-1", "", "", "", "", "", ""⟩], []⟩
     [] (List.Perm.swap _ _ _),
   claim_c5_subnet_classification.2.2.2.1
     ⟨[], [⟨"subnet-1", "", "vpc-1", "10.0.1.0/24", "", "", false, [], "", "", ""⟩],
      [], [], [], [], [⟨"rtb-other", "", "vpc-2", true, [], [], ["subnet-9"]⟩],
      [], [], [], ⟨0⟩, "us-east-1"⟩
     ⟨"subnet-1", "", "vpc-1", "10.0.1.0/24", "", "", false, [], "", "", ""⟩
     (by decide) (by decide) (by decide)⟩

/-- C10: a route counts as a NAT route purely by the syntactic `nat-` prefix
of its gateway reference together with the default destination — no NAT
Gateway collection is consulted (`determineSubnetType` does not even receive
one) — so a snapshot whose only route table holds a default route to
`nat-unknown`, an identifier in no collection, still classifies its subnet
private; internet-gateway routes, by contrast, require the referenced
identifier to be present in the Internet Gateway set, so the same snapshot
with gateway `igw-1` and an empty gateway set classifies isolated. -/
theorem claim_c10_nat_route_syntactic :
    (∀ (rt : RouteTable) (igws : List InternetGateway),
      determineSubnetType rt igws = "private" ↔
        (¬(∃ r ∈ rt.Routes, isInternetGatewayRoute igws r) ∧
          ∃ r ∈ rt.Routes, goHasPrefix r.GatewayID "nat-" = true ∧
            r.DestinationCidr = "0.0.0.0/0")) ∧
    ((updateSubnetTypes
        ⟨[], [⟨"subnet-1", "", "vpc-1", "10.0.1.0/24", "", "", false, [], "", "", ""⟩],
         [], [], [], [],
         [⟨"rtb-1", "", "vpc-1", false, [],
           [⟨"0.0.0.0/0", "nat-unknown", "", "", "", "", "", ""⟩], ["subnet-1"]⟩],
         [], [], [], ⟨0⟩, "us-east-1"⟩).Subnets.map Subnet.Type_ = ["private"] ∧
      (⟨[], [⟨"subnet-1", "", "vpc-1", "10.0.1.0/24", "", "", false, [], "", "", ""⟩],
        [], [], [], [],
        [⟨"rtb-1", "", "vpc-1", false, [],
          [⟨"0.0.0.0/0", "nat-unknown", "", "", "", "", "", ""⟩], ["subnet-1"]⟩],
        [], [], [], ⟨0⟩, "us-east-1"⟩ : Network).NATGateways = []) ∧
    ((updateSubnetTypes
        ⟨[], [⟨"subnet-1", "", "vpc-1", "10.0.1.0/24", "", "", false, [], "", "", ""⟩],
         [], [], [], [],
         [⟨"rtb-1", "", "vpc-1", false, [],
           [⟨"0.0.0.0/0", "igw-1", "", "", "", "", "", ""⟩], ["subnet-1"]⟩],
         [], [], [], ⟨0⟩, "us-east-1"⟩).Subnets.map Subnet.Type_ = ["isolated"]) := by
  refine ⟨?_, ⟨by decide, rfl⟩, by decide⟩
  intro rt igws
  have h := (determineSubnetType_iff_all rt igws).2.1
  simpa [isNATRoute] using h

/-!
## Output order of `Compare` (claim C6)
-/

/-- Position of a kind in the emission order of `compareSlices`. -/
def kindRank : DifferenceType → Nat
  | .Added => 0
  | .Removed => 1
  | .Modified => 2

/-- Position of a resource type in the fixed comparison order of `Compare`. -/
def typeRank : String → Nat
  | "VPC" => 0
  | "Subnet" => 1
  | "SecurityGroup" => 2
  | "NetworkACL" => 3
  | "RouteTable" => 4
  | "PeeringConnection" => 5
  | "TransitGateway" => 6
  | "InternetGateway" => 7
  | "NATGateway" => 8
  | "IAMRole" => 9
  | _ => 10

/-- Rank of a difference in the (type, kind) lexicographic emission order. -/
def diffRank (d : Difference) : Nat := 3 * typeRank d.ResourceType + kindRank d.Type_

theorem compareSlices_parts {α : Type} (resourceType : String) (getID : α → String)
    (f : α → α → List String) (baseline current : List α) :
    ∃ A B C, compareSlices resourceType getID f baseline current = A ++ B ++ C ∧
      (∀ d ∈ A, d.ResourceType = resourceType ∧ d.Type_ = DifferenceType.Added) ∧
      (∀ d ∈ B, d.ResourceType = resourceType ∧ d.Type_ = DifferenceType.Removed) ∧
      (∀ d ∈ C, d.ResourceType = resourceType ∧ d.Type_ = DifferenceType.Modified) := by
  refine ⟨_, _, _, rfl, ?_, ?_, ?_⟩
  · intro d hd
    obtain ⟨p, hp, hgp⟩ := List.mem_filterMap.mp hd
    split at hgp
    · simp only [Option.some.injEq] at hgp
      subst hgp
      exact ⟨rfl, rfl⟩
    · exact Option.noConfusion hgp
  · intro d hd
    obtain ⟨p, hp, hgp⟩ := List.mem_filterMap.mp hd
    split at hgp
    · simp only [Option.some.injEq] at hgp
      subst hgp
      exact ⟨rfl, rfl⟩
    · exact Option.noConfusion hgp
  · intro d hd
    obtain ⟨p, hp, hgp⟩ := List.mem_filterMap.mp hd
    split at hgp
    · exact Option.noConfusion hgp
    · dsimp only at hgp
      split at hgp
      · exact Option.noConfusion hgp
      · simp only [Option.some.injEq] at hgp
        subst hgp
        exact ⟨rfl, rfl⟩

theorem kindRank_le_two (k : DifferenceType) : kindRank k ≤ 2 := by
  cases k <;> simp [kindRank]

theorem compareSlices_rank_facts {α : Type} (resourceType : String) (getID : α → String)
    (f : α → α → List String) (baseline current : List α) :
    ((compareSlices resourceType getID f baseline current).map diffRank).Sorted (· ≤ ·) ∧
    (∀ d ∈ compareSlices resourceType getID f baseline current,
      3 * typeRank resourceType ≤ diffRank d ∧
        diffRank d < 3 * typeRank resourceType + 3) ∧
    (∀ d ∈ compareSlices resourceType getID f baseline current,
      d.ResourceType = resourceType) := by
  obtain ⟨A, B, C, heq, hA, hB, hC⟩ :=
    compareSlices_parts resourceType getID f baseline current
  rw [heq]
  have hrankA : ∀ d ∈ A, diffRank d = 3 * typeRank resourceType := by
    intro d hd
    rw [diffRank, (hA d hd).1, (hA d hd).2]
    rfl
  have hrankB : ∀ d ∈ B, diffRank d = 3 * typeRank resourceType + 1 := by
    intro d hd
    rw [diffRank, (hB d hd).1, (hB d hd).2]
    rfl
  have hrankC : ∀ d ∈ C, diffRank d = 3 * typeRank resourceType + 2 := by
    intro d hd
    rw [diffRank, (hC d hd).1, (hC d hd).2]
    rfl
  refine ⟨?_, ?_, ?_⟩
  · rw [List.map_append, List.map_append]
    refine List.pairwise_append.mpr ⟨List.pairwise_append.mpr ⟨?_, ?_, ?_⟩, ?_, ?_⟩
    · refine List.pairwise_of_forall_mem_list ?_
      intro a ha b hb
      obtain ⟨x, hx, hxa⟩ := List.mem_map.mp ha
      obtain ⟨y, hy, hyb⟩ := List.mem_map.mp hb
      rw [← hxa, ← hyb, hrankA x hx, hrankA y hy]
    · refine List.pairwise_of_forall_mem_list ?_
      intro a ha b hb
      obtain ⟨x, hx, hxa⟩ := List.mem_map.mp ha
      obtain ⟨y, hy, hyb⟩ := List.mem_map.mp hb
      rw [← hxa, ← hyb, hrankB x hx, hrankB y hy]
    · intro a ha b hb
      obtain ⟨x, hx, hxa⟩ := List.mem_map.mp ha
      obtain ⟨y, hy, hyb⟩ := List.mem_map.mp hb
      rw [← hxa, ← hyb, hrankA x hx, hrankB y hy]
      omega
    · refine List.pairwise_of_forall_mem_list ?_
      intro a ha b hb
      obtain ⟨x, hx, hxa⟩ := List.mem_map.mp ha
      obtain ⟨y, hy, hyb⟩ := List.mem_map.mp hb
      rw [← hxa, ← hyb, hrankC x hx, hrankC y hy]
    · intro a ha b hb
      obtain ⟨y, hy, hyb⟩ := List.mem_map.mp hb
      rw [← hyb, hrankC y hy]
      rcases List.mem_append.mp ha with hax | hax
      · obtain ⟨x, hx, hxa⟩ := List.mem_map.mp hax
        rw [← hxa, hrankA x hx]
        omega
      · obtain ⟨x, hx, hxa⟩ := List.mem_map.mp hax
        rw [← hxa, hrankB x hx]
        omega
  · intro d hd
    rcases List.mem_append.mp hd with hd1 | hd2
    · rcases List.mem_append.mp hd1 with hda | hdb
      · rw [hrankA d hda]
        omega
      · rw [hrankB d hdb]
        omega
    · rw [hrankC d hd2]
      omega
  · intro d hd
    rcases List.mem_append.mp hd with hd1 | hd2
    · rcases List.mem_append.mp hd1 with hda | hdb
      · exact (hA d hda).1
      · exact (hB d hdb).1
    · exact (hC d hd2).1

theorem sorted_band_append (l1 l2 : List Difference) (lo1 hi1 lo2 hi2 : Nat)
    (hs1 : (l1.map diffRank).Sorted (· ≤ ·))
    (hb1 : ∀ d ∈ l1, lo1 ≤ diffRank d ∧ diffRank d < hi1)
    (hs2 : (l2.map diffRank).Sorted (· ≤ ·))
    (hb2 : ∀ d ∈ l2, lo2 ≤ diffRank d ∧ diffRank d < hi2)
    (hmid : hi1 ≤ lo2) (hlo : lo1 ≤ lo2) (hhi : hi1 ≤ hi2) :
    ((l1 ++ l2).map diffRank).Sorted (· ≤ ·) ∧
    (∀ d ∈ l1 ++ l2, lo1 ≤ diffRank d ∧ diffRank d < hi2) := by
  constructor
  · rw [List.map_append]
    refine List.pairwise_append.mpr ⟨hs1, hs2, ?_⟩
    intro a ha b hb
    obtain ⟨x, hx, hxa⟩ := List.mem_map.mp ha
    obtain ⟨y, hy, hyb⟩ := List.mem_map.mp hb
    rw [← hxa, ← hyb]
    have h1 := (hb1 x hx).2
    have h2 := (hb2 y hy).1
    omega
  · intro d hd
    rcases List.mem_append.mp hd with h | h
    · have := hb1 d h
      omega
    · have := hb2 d h
      omega

/-- C6 amended: `Compare` is a function of the two snapshots (deterministic in
this model), whose output is ordered by the fixed resource-type order VPC,
Subnet, SecurityGroup, NetworkACL, RouteTable, PeeringConnection,
TransitGateway, InternetGateway, NATGateway, IAMRole, with the kinds grouped
Added, Removed, Modified inside each type; within each type and kind the
differences follow map iteration order and are not sorted by resource
identifier. -/
theorem claim_c6_amended :
    (∀ baseline current : Network,
      ((Compare baseline current).map diffRank).Sorted (· ≤ ·)) ∧
    (∀ (baseline current : Network) (d : Difference), d ∈ Compare baseline current →
      d.ResourceType ∈ ["VPC", "Subnet", "SecurityGroup", "NetworkACL", "RouteTable",
        "PeeringConnection", "TransitGateway", "InternetGateway", "NATGateway",
        "IAMRole"]) := by
  constructor
  · intro baseline current
    unfold Compare compareVPCs compareSubnets compareSecurityGroups compareNetworkAcls
      compareRouteTables comparePeeringConnections compareTransitGateways
      compareInternetGateways compareNATGateways compareIAMRoles
    have t1 := compareSlices_rank_facts "VPC" VPC.ID compareStructsVPC
      baseline.VPCs current.VPCs
    have t2 := compareSlices_rank_facts "Subnet" Subnet.ID compareStructsSubnet
      baseline.Subnets current.Subnets
    have t3 := compareSlices_rank_facts "SecurityGroup" SecurityGroup.ID compareStructsSG
      baseline.SecurityGroups current.SecurityGroups
    have t4 := compareSlices_rank_facts "NetworkACL" NetworkAcl.ID compareStructsNACL
      baseline.NetworkAcls current.NetworkAcls
    have t5 := compareSlices_rank_facts "RouteTable" RouteTable.ID
      compareStructsRouteTable baseline.RouteTables current.RouteTables
    have t6 := compareSlices_rank_facts "PeeringConnection" PeeringConnection.ID
      compareStructsPeering baseline.PeeringConnections current.PeeringConnections
    have t7 := compareSlices_rank_facts "TransitGateway" TransitGateway.ID
      compareStructsTGW baseline.TransitGateways current.TransitGateways
    have t8 := compareSlices_rank_facts "InternetGateway" InternetGateway.ID
      compareStructsIGW baseline.InternetGateways current.InternetGateways
    have t9 := compareSlices_rank_facts "NATGateway" NATGateway.ID compareStructsNAT
      baseline.NATGateways current.NATGateways
    have t10 := compareSlices_rank_facts "IAMRole" IAMRole.ID compareStructsIAMRole
      baseline.IAMRoles current.IAMRoles
    have s2 := sorted_band_append _ _ _ _ _ _ t1.1 t1.2.1 t2.1 t2.2.1
      (by decide) (by decide) (by decide)
    have s3 := sorted_band_append _ _ _ _ _ _ s2.1 s2.2 t3.1 t3.2.1
      (by decide) (by decide) (by decide)
    have s4 := sorted_band_append _ _ _ _ _ _ s3.1 s3.2 t4.1 t4.2.1
      (by decide) (by decide) (by decide)
    have s5 := sorted_band_append _ _ _ _ _ _ s4.1 s4.2 t5.1 t5.2.1
      (by decide) (by decide) (by decide)
    have s6 := sorted_band_append _ _ _ _ _ _ s5.1 s5.2 t6.1 t6.2.1
      (by decide) (by decide) (by decide)
    have s7 := sorted_band_append _ _ _ _ _ _ s6.1 s6.2 t7.1 t7.2.1
      (by decide) (by decide) (by decide)
    have s8 := sorted_band_append _ _ _ _ _ _ s7.1 s7.2 t8.1 t8.2.1
      (by decide) (by decide) (by decide)
    have s9 := sorted_band_append _ _ _ _ _ _ s8.1 s8.2 t9.1 t9.2.1
      (by decide) (by decide) (by decide)
    have s10 := sorted_band_append _ _ _ _ _ _ s9.1 s9.2 t10.1 t10.2.1
      (by decide) (by decide) (by decide)
    exact s10.1
  · intro baseline current d hd
    unfold Compare compareVPCs compareSubnets compareSecurityGroups compareNetworkAcls
      compareRouteTables comparePeeringConnections compareTransitGateways
      compareInternetGateways compareNATGateways compareIAMRoles at hd
    have t1 := (compareSlices_rank_facts "VPC" VPC.ID compareStructsVPC
      baseline.VPCs current.VPCs).2.2
    have t2 := (compareSlices_rank_facts "Subnet" Subnet.ID compareStructsSubnet
      baseline.Subnets current.Subnets).2.2
    have t3 := (compareSlices_rank_facts "SecurityGroup" SecurityGroup.ID
      compareStructsSG baseline.SecurityGroups current.SecurityGroups).2.2
    have t4 := (compareSlices_rank_facts "NetworkACL" NetworkAcl.ID compareStructsNACL
      baseline.NetworkAcls current.NetworkAcls).2.2
    have t5 := (compareSlices_rank_facts "RouteTable" RouteTable.ID
      compareStructsRouteTable baseline.RouteTables current.RouteTables).2.2
    have t6 := (compareSlices_rank_facts "PeeringConnection" PeeringConnection.ID
      compareStructsPeering baseline.PeeringConnections current.PeeringConnections).2.2
    have t7 := (compareSlices_rank_facts "TransitGateway" TransitGateway.ID
      compareStructsTGW baseline.TransitGateways current.TransitGateways).2.2
    have t8 := (compareSlices_rank_facts "InternetGateway" InternetGateway.ID
      compareStructsIGW baseline.InternetGateways current.InternetGateways).2.2
    have t9 := (compareSlices_rank_facts "NATGateway" NATGateway.ID compareStructsNAT
      baseline.NATGateways current.NATGateways).2.2
    have t10 := (compareSlices_rank_facts "IAMRole" IAMRole.ID compareStructsIAMRole
      baseline.IAMRoles current.IAMRoles).2.2
    rcases List.mem_append.mp hd with h | h
    · rcases List.mem_append.mp h with h | h
      · rcases List.mem_append.mp h with h | h
        · rcases List.mem_append.mp h with h | h
          · rcases List.mem_append.mp h with h | h
            · rcases List.mem_append.mp h with h | h
              · rcases List.mem_append.mp h with h | h
                · rcases List.mem_append.mp h with h | h
                  · rcases List.mem_append.mp h with h | h
                    · rw [t1 d h]
                      decide
                    · rw [t2 d h]
                      decide
                  · rw [t3 d h]
                    decide
                · rw [t4 d h]
                  decide
              · rw [t5 d h]
                decide
            · rw [t6 d h]
              decide
          · rw [t7 d h]
            decide
        · rw [t8 d h]
          decide
      · rw [t9 d h]
        decide
    · rw [t10 d h]
      decide

/-- C6 counterexample: two `Added` VPC differences of the same type and kind
come out in map (insertion) order, not sorted by resource identifier. -/
theorem claim_c6_counterexample :
    ((Compare ⟨[], [], [], [], [], [], [], [], [], [], ⟨0⟩, "us-east-1"⟩
        ⟨[⟨"vpc-b", "", "10.0.0.0/16", "", false, "", [], [], [], [], [], []⟩,
          ⟨"vpc-a", "", "10.1.0.0/16", "", false, "", [], [], [], [], [], []⟩],
         [], [], [], [], [], [], [], [], [], ⟨0⟩, "us-east-1"⟩).map
        (fun d => d.ResourceID) = ["vpc-b", "vpc-a"]) ∧
    ((Compare ⟨[], [], [], [], [], [], [], [], [], [], ⟨0⟩, "us-east-1"⟩
        ⟨[⟨"vpc-b", "", "10.0.0.0/16", "", false, "", [], [], [], [], [], []⟩,
          ⟨"vpc-a", "", "10.1.0.0/16", "", false, "", [], [], [], [], [], []⟩],
         [], [], [], [], [], [], [], [], [], ⟨0⟩, "us-east-1"⟩).map
        (fun d => (d.ResourceType, d.Type_))
      = [("VPC", DifferenceType.Added), ("VPC", DifferenceType.Added)]) ∧
    ¬((Compare ⟨[], [], [], [], [], [], [], [], [], [], ⟨0⟩, "us-east-1"⟩
        ⟨[⟨"vpc-b", "", "10.0.0.0/16", "", false, "", [], [], [], [], [], []⟩,
          ⟨"vpc-a", "", "10.1.0.0/16", "", false, "", [], [], [], [], [], []⟩],
         [], [], [], [], [], [], [], [], [], ⟨0⟩, "us-east-1"⟩).map
        (fun d => d.ResourceID)).Sorted (· ≤ ·) := by
  have h1 : (Compare ⟨[], [], [], [], [], [], [], [], [], [], ⟨0⟩, "us-east-1"⟩
      ⟨[⟨"vpc-b", "", "10.0.0.0/16", "", false, "", [], [], [], [], [], []⟩,
        ⟨"vpc-a", "", "10.1.0.0/16", "", false, "", [], [], [], [], [], []⟩],
       [], [], [], [], [], [], [], [], [], ⟨0⟩, "us-east-1"⟩).map
      (fun d => d.ResourceID) = ["vpc-b", "vpc-a"] := by decide
  refine ⟨h1, by decide, ?_⟩
  intro hs
  rw [h1] at hs
  have h2 : ("vpc-b" : String) ≤ "vpc-a" :=
    (List.sorted_cons.mp hs).1 _ (by simp)
  have hlt : ("vpc-a" : String) < "vpc-b" := by
    rw [String.lt_iff_toList_lt]
    decide
  exact hlt.not_le h2

/-- Witness for the amended C6 at a concrete difference of a concrete
comparison. -/
theorem claim_c6_amended_witness :
    ((⟨DifferenceType.Added, "VPC", "vpc-b",
        "New " ++ "VPC".toLower ++ " created", []⟩ : Difference) ∈
      Compare ⟨[], [], [], [], [], [], [], [], [], [], ⟨0⟩, "us-east-1"⟩
        ⟨[⟨"vpc-b", "", "10.0.0.0/16", "", false, "", [], [], [], [], [], []⟩,
          ⟨"vpc-a", "", "10.1.0.0/16", "", false, "", [], [], [], [], [], []⟩],
         [], [], [], [], [], [], [], [], [], ⟨0⟩, "us-east-1"⟩) ∧
    (⟨DifferenceType.Added, "VPC", "vpc-b",
        "New " ++ "VPC".toLower ++ " created", []⟩ : Difference).ResourceType ∈
      ["VPC", "Subnet", "SecurityGroup", "NetworkACL", "RouteTable",
       "PeeringConnection", "TransitGateway", "InternetGateway", "NATGateway",
       "IAMRole"] := by
  have hd : (⟨DifferenceType.Added, "VPC", "vpc-b",
      "New " ++ "VPC".toLower ++ " created", []⟩ : Difference) ∈
      Compare ⟨[], [], [], [], [], [], [], [], [], [], ⟨0⟩, "us-east-1"⟩
        ⟨[⟨"vpc-b", "", "10.0.0.0/16", "", false, "", [], [], [], [], [], []⟩,
          ⟨"vpc-a", "", "10.1.0.0/16", "", false, "", [], [], [], [], [], []⟩],
         [], [], [], [], [], [], [], [], [], ⟨0⟩, "us-east-1"⟩ := by
    show (⟨DifferenceType.Added, "VPC", "vpc-b",
        "New " ++ "VPC".toLower ++ " created", []⟩ : Difference) ∈
      ([⟨DifferenceType.Added, "VPC", "vpc-b",
          "New " ++ "VPC".toLower ++ " created", []⟩,
        ⟨DifferenceType.Added, "VPC", "vpc-a",
          "New " ++ "VPC".toLower ++ " created", []⟩] : List Difference)
    exact List.mem_cons_self _ _
  exact ⟨hd, claim_c6_amended.2 _ _ _ hd⟩

/-!
## Watch scheduler resilience (claim C7)
-/

/-- C7 counterexample: an acquisition failure during the initial cycle aborts
the watch with an error — no tick fires, even though the next scan would
succeed — contradicting the claim that an initial-cycle failure does not stop
the scheduler. -/
theorem claim_c7_counterexample :
    Watch ⟨[], [], [], [], [], [], [], [], [], [], ⟨0⟩, "us-east-1"⟩
        (Except.error "throttled")
        [Except.ok ⟨[], [], [], [], [], [], [], [], [], [], ⟨1⟩, "us-east-1"⟩]
      = Except.error "initial scan failed: failed to scan network: throttled" := rfl

/-- C7 amended: a failure during a periodic cycle is reported as a skipped
cycle and does not stop the scheduler — every tick fires and every later
successful cycle still yields a Difference list against the same baseline —
but a failure during the initial cycle aborts the watch with an error. -/
theorem claim_c7_amended :
    (∀ (baseline initialNet : Network) (ticks : List (Except String Network)),
      ∃ outs, Watch baseline (Except.ok initialNet) ticks = Except.ok outs ∧
        outs.length = ticks.length + 1 ∧
        outs[0]? = some (some (Compare baseline initialNet))) ∧
    (∀ (baseline initialNet : Network) (ticks : List (Except String Network))
       (j : Nat) (net : Network), ticks[j]? = some (Except.ok net) →
      ∃ outs, Watch baseline (Except.ok initialNet) ticks = Except.ok outs ∧
        outs[j + 1]? = some (some (Compare baseline net))) ∧
    (∀ (baseline : Network) (e : String) (ticks : List (Except String Network)),
      Watch baseline (Except.error e) ticks
        = Except.error ("initial scan failed: " ++ ("failed to scan network: " ++ e))) := by
  refine ⟨?_, ?_, ?_⟩
  · intro baseline initialNet ticks
    refine ⟨_, rfl, ?_, ?_⟩
    · simp
    · simp
  · intro baseline initialNet ticks j net hj
    refine ⟨_, rfl, ?_⟩
    show (some (Compare baseline initialNet) :: ticks.map _)[j + 1]? = _
    rw [List.getElem?_cons_succ, List.getElem?_map, hj]
    rfl
  · intro baseline e ticks
    rfl

/-- Witness for the amended C7: a run whose first periodic tick fails and
whose second succeeds still produces the second tick's Difference list
against the same baseline. -/
theorem claim_c7_amended_witness :
    (([Except.error "throttled",
       Except.ok ⟨[], [], [], [], [], [], [], [], [], [], ⟨2⟩, "us-east-1"⟩] :
        List (Except String Network))[1]?
      = some (Except.ok ⟨[], [], [], [], [], [], [], [], [], [], ⟨2⟩, "us-east-1"⟩)) ∧
    (∃ outs, Watch ⟨[], [], [], [], [], [], [], [], [], [], ⟨0⟩, "us-east-1"⟩
        (Except.ok ⟨[], [], [], [], [], [], [], [], [], [], ⟨1⟩, "us-east-1"⟩)
        [Except.error "throttled",
         Except.ok ⟨[], [], [], [], [], [], [], [], [], [], ⟨2⟩, "us-east-1"⟩]
        = Except.ok outs ∧
      outs[1 + 1]? = some (some (Compare
        ⟨[], [], [], [], [], [], [], [], [], [], ⟨0⟩, "us-east-1"⟩
        ⟨[], [], [], [], [], [], [], [], [], [], ⟨2⟩, "us-east-1"⟩))) :=
  ⟨by simp,
   claim_c7_amended.2.1
     ⟨[], [], [], [], [], [], [], [], [], [], ⟨0⟩, "us-east-1"⟩
     ⟨[], [], [], [], [], [], [], [], [], [], ⟨1⟩, "us-east-1"⟩
     [Except.error "throttled",
      Except.ok ⟨[], [], [], [], [], [], [], [], [], [], ⟨2⟩, "us-east-1"⟩]
     1
     ⟨[], [], [], [], [], [], [], [], [], [], ⟨2⟩, "us-east-1"⟩
     (by simp)⟩

/-!
## Round-trip of the persisted snapshot (claim C8)
-/

theorem decList_map_roundtrip {α : Type} (enc : α → Json) (dec : Json → Option α)
    (h : ∀ a, dec (enc a) = some a) : ∀ l : List α, decList dec (l.map enc) = some l := by
  intro l
  induction l with
  | nil => rfl
  | cons x xs ih => simp [decList, h, ih]

theorem tags_roundtrip (tags : TagMap) :
    decTagEntries (tags.map fun p => (p.1, Json.str p.2)) = some tags := by
  induction tags with
  | nil => rfl
  | cons x xs ih => simp [decTagEntries, Json.asStr, ih]

theorem strList_roundtrip (l : List String) :
    decList Json.asStr (l.map Json.str) = some l :=
  decList_map_roundtrip Json.str Json.asStr (fun _ => rfl) l

theorem decodeVPC_encodeVPC (v : VPC) : decodeVPC (encodeVPC v) = some v := by
  simp [encodeVPC, decodeVPC, getStr, getBool, getTags, getStrList, getArr,
    lookupKey, encodeTags, encodeStrList, tags_roundtrip, strList_roundtrip]

theorem decodeSubnet_encodeSubnet (s : Subnet) : decodeSubnet (encodeSubnet s) = some s := by
  simp [encodeSubnet, decodeSubnet, getStr, getBool, getTags, lookupKey,
    encodeTags, tags_roundtrip]

theorem decodePeering_encodePeering (p : PeeringConnection) :
    decodePeering (encodePeering p) = some p := by
  simp [encodePeering, decodePeering, getStr, getTags, lookupKey, encodeTags,
    tags_roundtrip]

theorem decodeTGWAttachment_encodeTGWAttachment (a : TransitGatewayAttachment) :
    decodeTGWAttachment (encodeTGWAttachment a) = some a := by
  simp [encodeTGWAttachment, decodeTGWAttachment, getStr, getTags, lookupKey,
    encodeTags, tags_roundtrip]

theorem decodeTGW_encodeTGW (t : TransitGateway) : decodeTGW (encodeTGW t) = some t := by
  simp [encodeTGW, decodeTGW, getStr, getTags, getListWith, getArr, lookupKey,
    encodeTags, tags_roundtrip,
    decList_map_roundtrip encodeTGWAttachment decodeTGWAttachment
      decodeTGWAttachment_encodeTGWAttachment]

theorem decodeIGW_encodeIGW (g : InternetGateway) : decodeIGW (encodeIGW g) = some g := by
  simp [encodeIGW, decodeIGW, getStr, getTags, lookupKey, encodeTags, tags_roundtrip]

theorem decodeNAT_encodeNAT (g : NATGateway) : decodeNAT (encodeNAT g) = some g := by
  simp [encodeNAT, decodeNAT, getStr, getTags, lookupKey, encodeTags, tags_roundtrip]

theorem decodeRoute_encodeRoute (r : Route) : decodeRoute (encodeRoute r) = some r := by
  simp [encodeRoute, decodeRoute, getStr, lookupKey]

theorem decodeRouteTable_encodeRouteTable (rt : RouteTable) :
    decodeRouteTable (encodeRouteTable rt) = some rt := by
  simp [encodeRouteTable, decodeRouteTable, getStr, getBool, getTags, getStrList,
    getListWith, getArr, lookupKey, encodeTags, encodeStrList, tags_roundtrip,
    strList_roundtrip,
    decList_map_roundtrip encodeRoute decodeRoute decodeRoute_encodeRoute]

theorem decodeSGRule_encodeSGRule (r : SecurityGroupRule) :
    decodeSGRule (encodeSGRule r) = some r := by
  simp [encodeSGRule, decodeSGRule, getStr, getInt, getTags, getStrList, getArr,
    lookupKey, encodeTags, encodeStrList, tags_roundtrip, strList_roundtrip]

theorem decodeSG_encodeSG (g : SecurityGroup) : decodeSG (encodeSG g) = some g := by
  simp [encodeSG, decodeSG, getStr, getTags, getListWith, getArr, lookupKey,
    encodeTags, tags_roundtrip,
    decList_map_roundtrip encodeSGRule decodeSGRule decodeSGRule_encodeSGRule]

theorem decodeIAMPolicy_encodeIAMPolicy (p : IAMPolicy) :
    decodeIAMPolicy (encodeIAMPolicy p) = some p := by
  simp [encodeIAMPolicy, decodeIAMPolicy, getStr, getInt, getBool, getTime,
    getTags, lookupKey, encodeTags, encodeTime, tags_roundtrip]

theorem decodeIAMInlinePolicy_encodeIAMInlinePolicy (p : IAMInlinePolicy) :
    decodeIAMInlinePolicy (encodeIAMInlinePolicy p) = some p := by
  simp [encodeIAMInlinePolicy, decodeIAMInlinePolicy, getStr, lookupKey]

theorem decodeIAMRole_encodeIAMRole (r : IAMRole) :
    decodeIAMRole (encodeIAMRole r) = some r := by
  simp [encodeIAMRole, decodeIAMRole, getStr, getInt, getTime, getTags,
    getListWith, getArr, lookupKey, encodeTags, encodeTime, tags_roundtrip,
    decList_map_roundtrip encodeIAMPolicy decodeIAMPolicy
      decodeIAMPolicy_encodeIAMPolicy,
    decList_map_roundtrip encodeIAMInlinePolicy decodeIAMInlinePolicy
      decodeIAMInlinePolicy_encodeIAMInlinePolicy]

theorem decodePortRange_encodePortRange (r : NetworkAclPortRange) :
    decodePortRange (encodePortRange r) = some r := by
  simp [encodePortRange, decodePortRange, getInt, lookupKey]

theorem decodeIcmpType_encodeIcmpType (t : NetworkAclIcmpType) :
    decodeIcmpType (encodeIcmpType t) = some t := by
  simp [encodeIcmpType, decodeIcmpType, getInt, lookupKey]

theorem decodeNACLEntry_encodeNACLEntry (e : NetworkAclEntry) :
    decodeNACLEntry (encodeNACLEntry e) = some e := by
  cases hp : e.PortRange <;> cases hi : e.IcmpType <;>
    simp [encodeNACLEntry, decodeNACLEntry, getInt, getStr, getBool, getOpt,
      lookupKey, hp, hi, encodePortRange, decodePortRange, encodeIcmpType,
      decodeIcmpType] <;>
    rw [← hp, ← hi]

theorem decodeNACL_encodeNACL (a : NetworkAcl) : decodeNACL (encodeNACL a) = some a := by
  simp [encodeNACL, decodeNACL, getStr, getBool, getTags, getStrList, getListWith,
    getArr, lookupKey, encodeTags, encodeStrList, tags_roundtrip, strList_roundtrip,
    decList_map_roundtrip encodeNACLEntry decodeNACLEntry
      decodeNACLEntry_encodeNACLEntry]

/-- C8: writing a Snapshot to storage (JSON serialization, as `runScan` does)
and loading it back via `LoadWorkingState` yields a value equal to the
original, with no field excluded from the round-trip. -/
theorem claim_c8_roundtrip (n : Network) :
    LoadWorkingState (encodeNetwork n) = some n := by
  simp [LoadWorkingState, encodeNetwork, decodeNetwork, getTime, getStr,
    getListWith, getArr, lookupKey, encodeTime,
    decList_map_roundtrip encodeVPC decodeVPC decodeVPC_encodeVPC,
    decList_map_roundtrip encodeSubnet decodeSubnet decodeSubnet_encodeSubnet,
    decList_map_roundtrip encodePeering decodePeering decodePeering_encodePeering,
    decList_map_roundtrip encodeTGW decodeTGW decodeTGW_encodeTGW,
    decList_map_roundtrip encodeIGW decodeIGW decodeIGW_encodeIGW,
    decList_map_roundtrip encodeNAT decodeNAT decodeNAT_encodeNAT,
    decList_map_roundtrip encodeRouteTable decodeRouteTable
      decodeRouteTable_encodeRouteTable,
    decList_map_roundtrip encodeSG decodeSG decodeSG_encodeSG,
    decList_map_roundtrip encodeNACL decodeNACL decodeNACL_encodeNACL,
    decList_map_roundtrip encodeIAMRole decodeIAMRole decodeIAMRole_encodeIAMRole]

/-!
## VPC association index (claim C9)
-/

theorem updateVPCList_eq_map_of_nodup (net : Network) :
    ∀ l : List VPC, (l.map VPC.ID).Nodup →
      updateVPCList net l = l.map (enrichVPC net) := by
  intro l
  induction l with
  | nil => intro _; rfl
  | cons v rest ih =>
      intro hnd
      simp only [List.map_cons, List.nodup_cons] at hnd
      have hall : rest.all (fun w => w.ID != v.ID) = true := by
        rw [List.all_eq_true]
        intro w hw
        simp only [bne_iff_ne, ne_eq]
        intro he
        exact hnd.1 (he ▸ List.mem_map_of_mem VPC.ID hw)
      unfold updateVPCList
      rw [if_pos hall, ih hnd.2]
      rfl

/-- C9: with unique VPC identifiers and freshly scanned VPCs (whose
association lists start empty, as `scanVPCs` constructs them), every VPC's
association lists after `updateVPCAssociations` are exactly the identifiers of
the subnets, internet gateways, NAT gateways and security groups whose
vpc-reference equals that VPC's identifier, in collection order; the VPC
identifiers and all raw collections are untouched. -/
theorem claim_c9_vpc_associations (net : Network)
    (hnd : (net.VPCs.map VPC.ID).Nodup)
    (hempty : ∀ v ∈ net.VPCs, v.Subnets = [] ∧ v.InternetGateways = [] ∧
      v.NATGateways = [] ∧ v.SecurityGroups = []) :
    ((updateVPCAssociations net).VPCs.length = net.VPCs.length) ∧
    (∀ v ∈ (updateVPCAssociations net).VPCs,
      v.Subnets = (net.Subnets.filter fun s => s.VpcID == v.ID).map Subnet.ID ∧
      v.InternetGateways
        = (net.InternetGateways.filter fun g => g.VpcID == v.ID).map InternetGateway.ID ∧
      v.NATGateways
        = (net.NATGateways.filter fun g => g.VpcID == v.ID).map NATGateway.ID ∧
      v.SecurityGroups
        = (net.SecurityGroups.filter fun g => g.VpcID == v.ID).map SecurityGroup.ID) ∧
    ((updateVPCAssociations net).VPCs.map VPC.ID = net.VPCs.map VPC.ID) ∧
    ((updateVPCAssociations net).Subnets = net.Subnets ∧
     (updateVPCAssociations net).InternetGateways = net.InternetGateways ∧
     (updateVPCAssociations net).NATGateways = net.NATGateways ∧
     (updateVPCAssociations net).SecurityGroups = net.SecurityGroups ∧
     (updateVPCAssociations net).RouteTables = net.RouteTables ∧
     (updateVPCAssociations net).NetworkAcls = net.NetworkAcls) := by
  have hupd : (updateVPCAssociations net).VPCs = net.VPCs.map (enrichVPC net) := by
    show updateVPCList net net.VPCs = _
    exact updateVPCList_eq_map_of_nodup net net.VPCs hnd
  refine ⟨?_, ?_, ?_, rfl, rfl, rfl, rfl, rfl, rfl⟩
  · rw [hupd]
    exact List.length_map _ _
  · intro v hv
    rw [hupd] at hv
    obtain ⟨v0, hv0, rfl⟩ := List.mem_map.mp hv
    obtain ⟨h1, h2, h3, h4⟩ := hempty v0 hv0
    exact ⟨by simp [enrichVPC, h1], by simp [enrichVPC, h2],
           by simp [enrichVPC, h3], by simp [enrichVPC, h4]⟩
  · rw [hupd, List.map_map]
    rfl

/-- Witness for C9 at a concrete one-VPC snapshot. -/
theorem claim_c9_witness :
    ((([⟨"vpc-1", "", "10.0.0.0/16", "", false, "", [], [], [], [], [], []⟩] :
        List VPC).map VPC.ID).Nodup) ∧
    (∀ v ∈ (updateVPCAssociations
        ⟨[⟨"vpc-1", "", "10.0.0.0/16", "", false, "", [], [], [], [], [], []⟩],
         [⟨"subnet-1", "", "vpc-1", "10.0.1.0/24", "", "", false, [], "", "", ""⟩,
          ⟨"subnet-2", "", "vpc-2", "10.9.1.0/24", "", "", false, [], "", "", ""⟩],
         [], [], [⟨"igw-1", "", "vpc-1", "", []⟩],
         [⟨"nat-1", "", "vpc-1", "subnet-1", "", "", "", "", []⟩],
         [], [⟨"sg-1", "", "", "vpc-1", [], [], []⟩], [], [], ⟨0⟩,
         "us-east-1"⟩).VPCs,
      v.Subnets = (([⟨"subnet-1", "", "vpc-1", "10.0.1.0/24", "", "", false, [], "", "", ""⟩,
          ⟨"subnet-2", "", "vpc-2", "10.9.1.0/24", "", "", false, [], "", "", ""⟩] :
            List Subnet).filter fun s => s.VpcID == v.ID).map Subnet.ID ∧
      v.InternetGateways = (([⟨"igw-1", "", "vpc-1", "", []⟩] :
            List InternetGateway).filter fun g => g.VpcID == v.ID).map InternetGateway.ID ∧
      v.NATGateways = (([⟨"nat-1", "", "vpc-1", "subnet-1", "", "", "", "", []⟩] :
            List NATGateway).filter fun g => g.VpcID == v.ID).map NATGateway.ID ∧
      v.SecurityGroups = (([⟨"sg-1", "", "", "vpc-1", [], [], []⟩] :
            List SecurityGroup).filter fun g => g.VpcID == v.ID).map SecurityGroup.ID) :=
  ⟨by decide,
   (claim_c9_vpc_associations
      ⟨[⟨"vpc-1", "", "10.0.0.0/16", "", false, "", [], [], [], [], [], []⟩],
       [⟨"subnet-1", "", "vpc-1", "10.0.1.0/24", "", "", false, [], "", "", ""⟩,
        ⟨"subnet-2", "", "vpc-2", "10.9.1.0/24", "", "", false, [], "", "", ""⟩],
       [], [], [⟨"igw-1", "", "vpc-1", "", []⟩],
       [⟨"nat-1", "", "vpc-1", "subnet-1", "", "", "", "", []⟩],
       [], [⟨"sg-1", "", "", "vpc-1", [], [], []⟩], [], [], ⟨0⟩,
       "us-east-1"⟩
      (by decide) (by decide)).2.1⟩

/-- A summary built as `"New " ++ s ++ t` can never be the all-lowercase
string "new vpc created": the first characters differ. -/
theorem new_capitalised_ne (s t : String) :
    ("New " ++ s ++ t : String) ≠ "new vpc created" := by
  intro h
  have hd : ("New " ++ s ++ t).data = "new vpc created".data := congrArg String.data h
  rw [show ("New " ++ s ++ t).data
        = 'N' :: (("ew ".data ++ s.data) ++ t.data) from rfl,
      show "new vpc created".data = 'n' :: "ew vpc created".data from rfl] at hd
  injection hd with h1 h2
  exact absurd h1 (by decide)

/-- C2 counterexample: a newly appearing VPC produces exactly one `Added`
Difference with empty details, but its summary is the source's
"New vpc created" (capital N), not the claimed "new vpc created". -/
theorem claim_c2_counterexample :
    ((compareSlices "VPC" VPC.ID compareStructsVPC []
        [⟨"vpc-2", "", "10.0.0.0/16", "available", false, "", [], [], [], [], [], []⟩]).map
        (fun d => (d.Type_, d.ResourceID, d.Details))
      = [(DifferenceType.Added, "vpc-2", ([] : List String))]) ∧
    ((compareSlices "VPC" VPC.ID compareStructsVPC []
        [⟨"vpc-2", "", "10.0.0.0/16", "available", false, "", [], [], [], [], [], []⟩]).map
        (fun d => d.Description)
      ≠ ["new vpc created"]) := by
  constructor
  · decide
  · intro h
    have hmap : (compareSlices "VPC" VPC.ID compareStructsVPC []
        [⟨"vpc-2", "", "10.0.0.0/16", "available", false, "", [], [], [], [], [], []⟩]).map
        (fun d => d.Description)
        = ["New " ++ "VPC".toLower ++ " created"] := rfl
    rw [hmap] at h
    injection h with h1 h2
    exact new_capitalised_ne "VPC".toLower " created" h1
